import Mathlib

/-!
Verification of the protocol core of the `rust-rtmp` repository.

Shallow embedding of the three source components:
* the Abort message codec (`src/messages/types/abort.rs`),
* the stream-metadata translator (`src/sessions/mod.rs`),
* the outstanding-transaction types (`src/sessions/client/outstanding_transaction.rs`)
  together with the transaction ledger operations described in the specification.

Machine integers are modelled as `Nat` (with explicit bounds where the Rust
type is `u32`), byte buffers as `List Nat` of values below `2 ^ 8`, and the
Rust `f64`/`f32` floating point values as rationals (`ℚ`) with explicit
narrowing functions for the `as u32` and `as f32` casts.
-/

namespace RtmpSpec

/-! ## Abort message codec (`src/messages/types/abort.rs`) -/

/-- Error wrapper produced when serialization's underlying writer fails.
The repository defines it outside the provided sources; it carries no data
relevant to the claims, so it is modelled as a single-constructor type. -/
inductive MessageSerializationError
  | serializationError
deriving DecidableEq, Repr

/-- Error produced when deserialization reads truncated or invalid input.
The repository defines it outside the provided sources; modelled as a
single-constructor type. -/
inductive MessageDeserializationError
  | deserializationError
deriving DecidableEq, Repr

/-- The protocol message union.  Only the `Abort` variant is defined in the
provided sources (`abort.rs`); the other variants of the full enum are not
needed by any claim.  `stream_id` is a Rust `u32`, modelled as `Nat`. -/
inductive RtmpMessage
  | abort (stream_id : Nat)
deriving DecidableEq, Repr

/-- The byte buffer produced by `cursor.write_u32::<BigEndian>(stream_id)`:
the four big-endian bytes of the 32-bit stream id. -/
def abortBytes (stream_id : Nat) : List Nat :=
  [stream_id / 2 ^ 24 % 2 ^ 8, stream_id / 2 ^ 16 % 2 ^ 8,
   stream_id / 2 ^ 8 % 2 ^ 8, stream_id % 2 ^ 8]

/-- `serialize` from `abort.rs`: writes the stream id big-endian into an
in-memory buffer and returns it.  Writing into a `Vec`-backed cursor cannot
fail, so the result is always `Except.ok`. -/
def serialize (stream_id : Nat) :
    Except MessageSerializationError (List Nat) :=
  Except.ok (abortBytes stream_id)

/-- `deserialize` from `abort.rs`: `cursor.read_u32::<BigEndian>()?` reads the
first four bytes as a big-endian 32-bit integer, ignores any trailing bytes,
and fails (unexpected end of input, converted by `?` into the
deserialization error) when fewer than four bytes are available. -/
def deserialize (data : List Nat) :
    Except MessageDeserializationError RtmpMessage :=
  match data with
  | b0 :: b1 :: b2 :: b3 :: _ =>
      Except.ok (RtmpMessage.abort (b0 * 2 ^ 24 + b1 * 2 ^ 16 + b2 * 2 ^ 8 + b3))
  | _ => Except.error MessageDeserializationError.deserializationError

/-- Big-endian interpretation of a byte sequence, used to state what the
serialized bytes denote. -/
def beBytesToNat (bs : List Nat) : Nat :=
  bs.foldl (fun acc b => acc * 2 ^ 8 + b) 0

/-! ## Outstanding transactions and the transaction ledger
(`src/sessions/client/outstanding_transaction.rs` and §4.2 of the spec) -/

/-- Modelled from the spec: the publish-mode classification (`live`,
`recorded`, `append`), defined by the session component outside the provided
sources. -/
inductive PublishRequestType
  | live
  | record
  | append
deriving DecidableEq, Repr

/-- `TransactionPurpose` from `outstanding_transaction.rs`. -/
inductive TransactionPurpose
  | playRequest (stream_key : String)
  | publishRequest (stream_key : String) (request_type : PublishRequestType)
deriving DecidableEq, Repr

/-- `OutstandingTransaction` from `outstanding_transaction.rs`. -/
inductive OutstandingTransaction
  | connectionRequested (app_name : String)
  | createStream (purpose : TransactionPurpose)
deriving DecidableEq, Repr

/-- Modelled from the spec: the error reported when `take` is called with a
transaction id that has no registered entry (§4.2, §7). -/
inductive UnknownTransactionError
  | unknownTransaction
deriving DecidableEq, Repr

/-- Modelled from the spec: the Transaction Ledger of §4.2 is an associative
store of outstanding transactions keyed by 32-bit transaction id; the ledger
operations live in session code outside the provided sources.  Modelled as an
association list with unique keys. -/
abbrev TransactionLedger : Type := List (Nat × OutstandingTransaction)

/-- Modelled from the spec: `register(transaction_id, entry)` inserts an
entry keyed by `transaction_id`; on a colliding id the new entry overwrites
the old one (§4.2's recommended behavior). -/
def TransactionLedger.register (l : TransactionLedger) (transaction_id : Nat)
    (entry : OutstandingTransaction) : TransactionLedger :=
  (transaction_id, entry) :: l.filter (fun kv => !(kv.1 == transaction_id))

/-- Modelled from the spec: `take(transaction_id)` removes and returns the
entry if present, and reports `UnknownTransactionError` when no entry is
registered under that id (§4.2). -/
def TransactionLedger.take (l : TransactionLedger) (transaction_id : Nat) :
    Except UnknownTransactionError (OutstandingTransaction × TransactionLedger) :=
  match l.lookup transaction_id with
  | some entry => Except.ok (entry, l.filter (fun kv => !(kv.1 == transaction_id)))
  | none => Except.error UnknownTransactionError.unknownTransaction

/-! ## AMF0 values and numeric casts (`src/sessions/mod.rs`) -/

/-- The generic AMF0 value of the `rml_amf0` crate: numbers (Rust `f64`,
modelled as `ℚ`), booleans, UTF-8 strings, keyed objects (Rust
`HashMap<String, Amf0Value>`, modelled as an association list with unique
keys) and null. -/
inductive Amf0Value
  | number (value : ℚ)
  | boolean (value : Bool)
  | utf8String (value : String)
  | object (properties : List (String × Amf0Value))
  | null

/-- `Amf0Value::get_number`: `Some` exactly on the numeric variant. -/
def Amf0Value.get_number : Amf0Value → Option ℚ
  | Amf0Value.number x => some x
  | _ => none

/-- `Amf0Value::get_boolean`: `Some` exactly on the boolean variant. -/
def Amf0Value.get_boolean : Amf0Value → Option Bool
  | Amf0Value.boolean x => some x
  | _ => none

/-- `Amf0Value::get_string`: `Some` exactly on the string variant. -/
def Amf0Value.get_string : Amf0Value → Option String
  | Amf0Value.utf8String x => some x
  | _ => none

/-- Model of the Rust `x as u32` cast on an `f64` value: truncation toward
zero, saturating into the `u32` range (`f64` values are modelled as
rationals, so the NaN case does not arise). -/
def f64AsU32 (q : ℚ) : Nat := min (Int.toNat ⌊q⌋) (2 ^ 32 - 1)

/-- Model of the Rust `x as f64` widening of a `u32`: exact, since every
32-bit integer is representable in `f64`. -/
def u32AsF64 (n : Nat) : ℚ := (n : ℚ)

/-- The exponent of the leading binary digit of a nonzero rational: the
unique `e` with `2 ^ e ≤ |q| < 2 ^ (e + 1)`, computed from the base-2
logarithms of numerator and denominator. -/
def ratExp (q : ℚ) : ℤ :=
  let e : ℤ := (Nat.log 2 q.num.natAbs : ℤ) - (Nat.log 2 q.den : ℤ)
  if (2 : ℚ) ^ e ≤ |q| then e else e - 1

/-- Model of the Rust `x as f32` narrowing of an `f64` value: truncation of
the significand to 24 bits at the value's own binary exponent.  The bounded
exponent range of `f32` (overflow to infinity, subnormals) is not modelled;
on the metadata values in scope the cast is significand narrowing. -/
def f64AsF32 (q : ℚ) : ℚ :=
  if q = 0 then 0
  else
    (if q < 0 then -1 else 1) *
      ((⌊|q| * 2 ^ (23 - ratExp q)⌋ : ℤ) : ℚ) * 2 ^ (ratExp q - 23)

/-- Model of the Rust `x as f64` widening of an `f32`: exact (every `f32`
value is representable in `f64`), so on the rational model it is the
identity. -/
def f32AsF64 (q : ℚ) : ℚ := q

/-! ## Stream metadata (`src/sessions/mod.rs`) -/

/-- `StreamMetadata`: the metadata a stream may advertise on publishing.
Rust `u32` fields are modelled as `Nat`, `f64` fields as `ℚ`, the `f32`
field as a `ℚ` produced by the `f64AsF32` narrowing. -/
structure StreamMetadata where
  video_width : Option Nat
  video_height : Option Nat
  video_codec : Option ℚ
  video_frame_rate : Option ℚ
  video_bitrate_kbps : Option Nat
  audio_codec : Option ℚ
  audio_bitrate_kbps : Option Nat
  audio_sample_rate : Option Nat
  audio_channels : Option Nat
  audio_is_stereo : Option Bool
  encoder : Option String
deriving DecidableEq, Repr

attribute [ext] StreamMetadata

/-- `StreamMetadata::new`: the empty metadata instance. -/
def StreamMetadata.new : StreamMetadata :=
  { video_width := none
    video_height := none
    video_codec := none
    video_frame_rate := none
    video_bitrate_kbps := none
    audio_codec := none
    audio_bitrate_kbps := none
    audio_sample_rate := none
    audio_channels := none
    audio_is_stereo := none
    encoder := none }

/-- The loop body of `StreamMetadata::apply_metadata_values`: the `match` on
one drained `(key, value)` pair.  A recognized key whose value has the
matching kind overwrites the corresponding field (with the numeric
narrowing of the source); any other key, or a mismatched value kind, leaves
the record unchanged. -/
def applyMetadataValue (self : StreamMetadata) (key : String)
    (value : Amf0Value) : StreamMetadata :=
  if key = "width" then
    match value.get_number with
    | some x => { self with video_width := some (f64AsU32 x) }
    | none => self
  else if key = "height" then
    match value.get_number with
    | some x => { self with video_height := some (f64AsU32 x) }
    | none => self
  else if key = "videocodecid" then
    match value.get_number with
    | some x => { self with video_codec := some x }
    | none => self
  else if key = "videodatarate" then
    match value.get_number with
    | some x => { self with video_bitrate_kbps := some (f64AsU32 x) }
    | none => self
  else if key = "framerate" then
    match value.get_number with
    | some x => { self with video_frame_rate := some (f64AsF32 x) }
    | none => self
  else if key = "audiocodecid" then
    match value.get_number with
    | some x => { self with audio_codec := some x }
    | none => self
  else if key = "audiodatarate" then
    match value.get_number with
    | some x => { self with audio_bitrate_kbps := some (f64AsU32 x) }
    | none => self
  else if key = "audiosamplerate" then
    match value.get_number with
    | some x => { self with audio_sample_rate := some (f64AsU32 x) }
    | none => self
  else if key = "audiochannels" then
    match value.get_number with
    | some x => { self with audio_channels := some (f64AsU32 x) }
    | none => self
  else if key = "stereo" then
    match value.get_boolean with
    | some x => { self with audio_is_stereo := some x }
    | none => self
  else if key = "encoder" then
    match value.get_string with
    | some x => { self with encoder := some x }
    | none => self
  else self

/-- `StreamMetadata::apply_metadata_values` (the spec's `from_properties`):
drains the property map and applies each `(key, value)` pair in turn.  The
Rust `HashMap` is modelled as an association list with unique keys; the
drain order is immaterial because distinct keys touch distinct fields. -/
def StreamMetadata.apply_metadata_values (self : StreamMetadata)
    (properties : List (String × Amf0Value)) : StreamMetadata :=
  properties.foldl (fun md kv => applyMetadataValue md kv.1 kv.2) self

/-- One conditional insertion of `StreamMetadata::to_amf_value`: the entry
list contributed by one optional field (`self.field.map(|x| insert(...))`). -/
def optEntry (key : String) (o : Option Amf0Value) :
    List (String × Amf0Value) :=
  match o with
  | some v => [(key, v)]
  | none => []

/-- The property map built by `StreamMetadata::to_amf_value`: one entry per
present field under its recognized key, with the integral fields widened
back to the floating-point numeric representation. -/
def StreamMetadata.toProps (self : StreamMetadata) :
    List (String × Amf0Value) :=
  optEntry "width" (self.video_width.map (fun x => Amf0Value.number (u32AsF64 x))) ++
  optEntry "height" (self.video_height.map (fun x => Amf0Value.number (u32AsF64 x))) ++
  optEntry "videocodecid" (self.video_codec.map (fun x => Amf0Value.number x)) ++
  optEntry "videodatarate" (self.video_bitrate_kbps.map (fun x => Amf0Value.number (u32AsF64 x))) ++
  optEntry "framerate" (self.video_frame_rate.map (fun x => Amf0Value.number (f32AsF64 x))) ++
  optEntry "audiocodecid" (self.audio_codec.map (fun x => Amf0Value.number x)) ++
  optEntry "audiodatarate" (self.audio_bitrate_kbps.map (fun x => Amf0Value.number (u32AsF64 x))) ++
  optEntry "audiosamplerate" (self.audio_sample_rate.map (fun x => Amf0Value.number (u32AsF64 x))) ++
  optEntry "audiochannels" (self.audio_channels.map (fun x => Amf0Value.number (u32AsF64 x))) ++
  optEntry "stereo" (self.audio_is_stereo.map (fun x => Amf0Value.boolean x)) ++
  optEntry "encoder" (self.encoder.map (fun x => Amf0Value.utf8String x))

/-- `StreamMetadata::to_amf_value` (the spec's `to_properties`): wraps the
emitted property map in the AMF0 object variant. -/
def StreamMetadata.to_amf_value (self : StreamMetadata) : Amf0Value :=
  Amf0Value.object self.toProps

/-- The eleven recognized metadata keys, in source order. -/
def recognizedKeys : List String :=
  ["width", "height", "videocodecid", "videodatarate", "framerate",
   "audiocodecid", "audiodatarate", "audiosamplerate", "audiochannels",
   "stereo", "encoder"]

/-- Spec-side description of the per-key value narrowing (§4.3), used to
state the refinement claim C6: for a recognized key with a value of the
expected kind, the value the round trip should reproduce — the input value
up to the documented representation narrowing; `none` on a mismatched kind
or an unrecognized key. -/
def specNarrowedValue (key : String) (v : Amf0Value) : Option Amf0Value :=
  if key = "videocodecid" ∨ key = "audiocodecid" then
    v.get_number.map (fun x => Amf0Value.number x)
  else if key = "framerate" then
    v.get_number.map (fun x => Amf0Value.number (f32AsF64 (f64AsF32 x)))
  else if key = "stereo" then
    v.get_boolean.map (fun x => Amf0Value.boolean x)
  else if key = "encoder" then
    v.get_string.map (fun x => Amf0Value.utf8String x)
  else if key ∈ recognizedKeys then
    v.get_number.map (fun x => Amf0Value.number (u32AsF64 (f64AsU32 x)))
  else none

/-- The invariant satisfied by every metadata record reachable through
`apply_metadata_values`: integral fields hold 32-bit values and the frame
rate is a fixed point of the `f32` narrowing. -/
def ReachableMD (md : StreamMetadata) : Prop :=
  (∀ x ∈ md.video_width, x < 2 ^ 32) ∧
  (∀ x ∈ md.video_height, x < 2 ^ 32) ∧
  (∀ x ∈ md.video_frame_rate, f64AsF32 x = x) ∧
  (∀ x ∈ md.video_bitrate_kbps, x < 2 ^ 32) ∧
  (∀ x ∈ md.audio_bitrate_kbps, x < 2 ^ 32) ∧
  (∀ x ∈ md.audio_sample_rate, x < 2 ^ 32) ∧
  (∀ x ∈ md.audio_channels, x < 2 ^ 32)

/-- A ledger with no entry under `id` is untouched by filtering that id out. -/
theorem ledger_filter_eq_self (l : TransactionLedger) (id : Nat)
    (h : l.lookup id = none) :
    l.filter (fun kv => !(kv.1 == id)) = l := by
  induction l with
  | nil => rfl
  | cons p rest ih =>
      obtain ⟨k, v⟩ := p
      by_cases hk : id = k
      · subst hk
        simp [List.lookup] at h
      · have hne : (id == k) = false := by simpa using hk
        have hrest : rest.lookup id = none := by
          simpa [List.lookup, hne] using h
        have hkid : (k == id) = false := by
          simpa using fun he => hk he.symm
        simp [List.filter, hkid, ih hrest]

/-! ## Properties of the numeric casts -/

/-- The candidate exponent computed inside `ratExp` brackets `|q|` within a
factor of two on each side. -/
theorem exp_candidate_bounds (q : ℚ) (hq : q ≠ 0) :
    (2 : ℚ) ^ ((Nat.log 2 q.num.natAbs : ℤ) - (Nat.log 2 q.den : ℤ) - 1) < |q| ∧
      |q| < (2 : ℚ) ^ ((Nat.log 2 q.num.natAbs : ℤ) - (Nat.log 2 q.den : ℤ) + 1) := by
  have hnum : q.num ≠ 0 := Rat.num_ne_zero.mpr hq
  have hp : q.num.natAbs ≠ 0 := Int.natAbs_ne_zero.mpr hnum
  have hdpos : 0 < (q.den : ℚ) := by exact_mod_cast q.pos
  have habs : |q| = (q.num.natAbs : ℚ) / (q.den : ℚ) := by
    have hcast : (q.num.natAbs : ℚ) = |(q.num : ℚ)| := by
      rw [Nat.cast_natAbs, Int.cast_abs]
    calc |q| = |(q.num : ℚ) / (q.den : ℚ)| := by rw [Rat.num_div_den]
      _ = |(q.num : ℚ)| / |(q.den : ℚ)| := abs_div _ _
      _ = (q.num.natAbs : ℚ) / (q.den : ℚ) := by
          rw [abs_of_pos hdpos, hcast]
  set A : ℤ := (Nat.log 2 q.num.natAbs : ℤ) with hAdef
  set B : ℤ := (Nat.log 2 q.den : ℤ) with hBdef
  have hA1 : (2 : ℚ) ^ A ≤ (q.num.natAbs : ℚ) := by
    rw [hAdef, zpow_natCast]
    exact_mod_cast Nat.pow_log_le_self 2 hp
  have hA2 : (q.num.natAbs : ℚ) < (2 : ℚ) ^ (A + 1) := by
    have h := Nat.lt_pow_succ_log_self (b := 2) (by norm_num) q.num.natAbs
    have h2 : A + 1 = ((Nat.log 2 q.num.natAbs + 1 : ℕ) : ℤ) := by
      rw [hAdef]; push_cast; ring
    rw [h2, zpow_natCast]
    exact_mod_cast h
  have hB1 : (2 : ℚ) ^ B ≤ (q.den : ℚ) := by
    rw [hBdef, zpow_natCast]
    exact_mod_cast Nat.pow_log_le_self 2 q.den_nz
  have hB2 : (q.den : ℚ) < (2 : ℚ) ^ (B + 1) := by
    have h := Nat.lt_pow_succ_log_self (b := 2) (by norm_num) q.den
    have h2 : B + 1 = ((Nat.log 2 q.den + 1 : ℕ) : ℤ) := by
      rw [hBdef]; push_cast; ring
    rw [h2, zpow_natCast]
    exact_mod_cast h
  have h2ne : (2 : ℚ) ≠ 0 := by norm_num
  constructor
  · rw [habs, lt_div_iff₀ hdpos]
    calc (2 : ℚ) ^ (A - B - 1) * (q.den : ℚ)
        < (2 : ℚ) ^ (A - B - 1) * (2 : ℚ) ^ (B + 1) :=
          mul_lt_mul_of_pos_left hB2 (zpow_pos (by norm_num) _)
      _ = (2 : ℚ) ^ A := by rw [← zpow_add₀ h2ne]; congr 1; ring
      _ ≤ (q.num.natAbs : ℚ) := hA1
  · rw [habs, div_lt_iff₀ hdpos]
    calc (q.num.natAbs : ℚ)
        < (2 : ℚ) ^ (A + 1) := hA2
      _ = (2 : ℚ) ^ (A - B + 1) * (2 : ℚ) ^ B := by
          rw [← zpow_add₀ h2ne]; congr 1; ring
      _ ≤ (2 : ℚ) ^ (A - B + 1) * (q.den : ℚ) :=
          mul_le_mul_of_nonneg_left hB1 (le_of_lt (zpow_pos (by norm_num) _))

/-- Correctness of `ratExp`: for a nonzero rational, `2 ^ ratExp q` is the
largest power of two not exceeding `|q|`. -/
theorem ratExp_bounds (q : ℚ) (hq : q ≠ 0) :
    (2 : ℚ) ^ ratExp q ≤ |q| ∧ |q| < (2 : ℚ) ^ (ratExp q + 1) := by
  obtain ⟨hlow, hhigh⟩ := exp_candidate_bounds q hq
  simp only [ratExp]
  split_ifs with h
  · exact ⟨h, hhigh⟩
  · constructor
    · exact le_of_lt hlow
    · rw [sub_add_cancel]
      exact lt_of_not_le h

/-- Uniqueness of the leading-digit exponent: any `E` bracketing `|q|`
equals `ratExp q`. -/
theorem ratExp_eq_of_bounds (q : ℚ) (hq : q ≠ 0) (E : ℤ)
    (h1 : (2 : ℚ) ^ E ≤ |q|) (h2 : |q| < (2 : ℚ) ^ (E + 1)) :
    ratExp q = E := by
  obtain ⟨l, u⟩ := ratExp_bounds q hq
  by_contra hne
  rcases lt_or_gt_of_ne hne with hlt | hgt
  · have : (2 : ℚ) ^ (ratExp q + 1) ≤ (2 : ℚ) ^ E :=
      zpow_le_zpow_right₀ one_le_two (by omega)
    linarith
  · have : (2 : ℚ) ^ (E + 1) ≤ (2 : ℚ) ^ ratExp q :=
      zpow_le_zpow_right₀ one_le_two (by omega)
    linarith

/-- The `f32` narrowing model is idempotent: narrowing an already narrowed
value returns it unchanged. -/
theorem f64AsF32_idem (q : ℚ) : f64AsF32 (f64AsF32 q) = f64AsF32 q := by
  by_cases h0 : q = 0
  · simp [f64AsF32, h0]
  · obtain ⟨hl, hu⟩ := ratExp_bounds q h0
    have h2ne : (2 : ℚ) ≠ 0 := by norm_num
    set e : ℤ := ratExp q with he
    set m : ℤ := ⌊|q| * 2 ^ (23 - e)⌋ with hm
    have hpow_pos : (0 : ℚ) < 2 ^ (23 - e) := zpow_pos (by norm_num) _
    have hmlo : (2 : ℚ) ^ (23 : ℤ) ≤ |q| * 2 ^ (23 - e) := by
      calc (2 : ℚ) ^ (23 : ℤ) = 2 ^ e * 2 ^ (23 - e) := by
            rw [← zpow_add₀ h2ne]; congr 1; ring
        _ ≤ |q| * 2 ^ (23 - e) := mul_le_mul_of_nonneg_right hl (le_of_lt hpow_pos)
    have hmhi : |q| * 2 ^ (23 - e) < (2 : ℚ) ^ (24 : ℤ) := by
      calc |q| * 2 ^ (23 - e) < 2 ^ (e + 1) * 2 ^ (23 - e) :=
            mul_lt_mul_of_pos_right hu hpow_pos
        _ = (2 : ℚ) ^ (24 : ℤ) := by rw [← zpow_add₀ h2ne]; congr 1; ring
    have hmlo' : (2 ^ 23 : ℤ) ≤ m := by
      rw [hm]
      apply Int.le_floor.mpr
      calc ((2 ^ 23 : ℤ) : ℚ) = (2 : ℚ) ^ (23 : ℤ) := by norm_num
        _ ≤ |q| * 2 ^ (23 - e) := hmlo
    have hmhi' : m < (2 ^ 24 : ℤ) := by
      rw [hm]
      apply Int.floor_lt.mpr
      calc |q| * 2 ^ (23 - e) < (2 : ℚ) ^ (24 : ℤ) := hmhi
        _ = ((2 ^ 24 : ℤ) : ℚ) := by norm_num
    have hmpos : (0 : ℚ) < (m : ℚ) := by
      have : (0 : ℤ) < m := lt_of_lt_of_le (by norm_num) hmlo'
      exact_mod_cast this
    -- the narrowed value and its absolute value
    have hr : f64AsF32 q = (if q < 0 then -1 else 1) * (m : ℚ) * 2 ^ (e - 23) := by
      rw [f64AsF32, if_neg h0, ← he, ← hm]
    set r : ℚ := (if q < 0 then -1 else 1) * (m : ℚ) * 2 ^ (e - 23) with hrdef
    have hrabs : |r| = (m : ℚ) * 2 ^ (e - 23) := by
      rw [hrdef, abs_mul, abs_mul]
      have h1 : |(if q < 0 then (-1 : ℚ) else 1)| = 1 := by
        split_ifs <;> norm_num
      rw [h1, one_mul, abs_of_pos hmpos,
        abs_of_pos (zpow_pos (by norm_num) _)]
    have hrpos : (0 : ℚ) < (m : ℚ) * 2 ^ (e - 23) :=
      mul_pos hmpos (zpow_pos (by norm_num) _)
    have hrne : r ≠ 0 := by
      intro hr0
      rw [hr0] at hrabs
      simp only [abs_zero] at hrabs
      exact absurd hrabs.symm (ne_of_gt hrpos)
    -- the narrowed value has the same leading exponent
    have hrexp : ratExp r = e := by
      apply ratExp_eq_of_bounds r hrne
      · rw [hrabs]
        calc (2 : ℚ) ^ e = 2 ^ (23 : ℤ) * 2 ^ (e - 23) := by
              rw [← zpow_add₀ h2ne]; congr 1; ring
          _ ≤ (m : ℚ) * 2 ^ (e - 23) := by
              apply mul_le_mul_of_nonneg_right _ (le_of_lt (zpow_pos (by norm_num) _))
              calc (2 : ℚ) ^ (23 : ℤ) = ((2 ^ 23 : ℤ) : ℚ) := by norm_num
                _ ≤ (m : ℚ) := by exact_mod_cast hmlo'
      · rw [hrabs]
        calc (m : ℚ) * 2 ^ (e - 23)
            < 2 ^ (24 : ℤ) * 2 ^ (e - 23) := by
              apply mul_lt_mul_of_pos_right _ (zpow_pos (by norm_num) _)
              calc (m : ℚ) < ((2 ^ 24 : ℤ) : ℚ) := by exact_mod_cast hmhi'
                _ = (2 : ℚ) ^ (24 : ℤ) := by norm_num
          _ = (2 : ℚ) ^ (e + 1) := by rw [← zpow_add₀ h2ne]; congr 1; ring
    -- re-truncating the significand recovers the same integer
    have hfloor : ⌊|r| * 2 ^ (23 - e)⌋ = m := by
      rw [hrabs]
      have : (m : ℚ) * 2 ^ (e - 23) * 2 ^ (23 - e) = (m : ℚ) := by
        rw [mul_assoc, ← zpow_add₀ h2ne]
        norm_num
      rw [this, Int.floor_intCast]
    -- the narrowed value has the same sign as the input
    have hrsign : (r < 0) = (q < 0) := by
      by_cases hq : q < 0
      · simp only [hq, if_true] at hrdef
        have : r = -((m : ℚ) * 2 ^ (e - 23)) := by rw [hrdef]; ring
        simp [hq, this, hrpos]
      · simp only [hq, if_false] at hrdef
        have : r = (m : ℚ) * 2 ^ (e - 23) := by rw [hrdef]; ring
        simp [hq, this, le_of_lt hrpos, not_lt_of_ge (le_of_lt hrpos)]
    rw [hr, f64AsF32, if_neg hrne, hrexp, hfloor]
    by_cases hq : q < 0
    · have hr0 : r < 0 := by rw [hrsign]; exact hq
      rw [if_pos hr0, hrdef, if_pos hq]
    · have hr0 : ¬r < 0 := by rw [hrsign]; exact hq
      rw [if_neg hr0, hrdef, if_neg hq]

/-- The `u32` saturating cast always lands in the 32-bit range. -/
theorem f64AsU32_lt (q : ℚ) : f64AsU32 q < 2 ^ 32 := by
  rw [f64AsU32]
  omega

/-- The `u32` cast is a retraction of the exact widening on the 32-bit
range. -/
theorem f64AsU32_u32AsF64 (n : Nat) (h : n < 2 ^ 32) :
    f64AsU32 (u32AsF64 n) = n := by
  rw [f64AsU32, u32AsF64, Int.floor_natCast]
  omega

/-! ## Claim theorems for the codec and the ledger -/

/-- C1: for every unsigned 32-bit stream id `s`, serializing the Abort
message with stream id `s` and deserializing the resulting bytes yields the
Abort message with `stream_id = s`. -/
theorem abort_serialize_deserialize_roundtrip (s : Nat) (hs : s < 2 ^ 32) :
    serialize s = Except.ok (abortBytes s) ∧
      deserialize (abortBytes s) = Except.ok (RtmpMessage.abort s) := by
  refine ⟨rfl, ?_⟩
  have h : s / 2 ^ 24 % 2 ^ 8 * 2 ^ 24 + s / 2 ^ 16 % 2 ^ 8 * 2 ^ 16 +
      s / 2 ^ 8 % 2 ^ 8 * 2 ^ 8 + s % 2 ^ 8 = s := by omega
  simp only [abortBytes, deserialize, h]

/-- Witness for C1 at the concrete stream id 523. -/
theorem abort_serialize_deserialize_roundtrip_witness :
    523 < 2 ^ 32 ∧
      (serialize 523 = Except.ok (abortBytes 523) ∧
        deserialize (abortBytes 523) = Except.ok (RtmpMessage.abort 523)) :=
  ⟨by decide, abort_serialize_deserialize_roundtrip 523 (by decide)⟩

/-- C2: Abort `deserialize` fails with the deserialization error on every
input of fewer than four bytes. -/
theorem abort_deserialize_truncated (data : List Nat) (h : data.length < 4) :
    deserialize data =
      Except.error MessageDeserializationError.deserializationError := by
  match data with
  | [] => rfl
  | [_] => rfl
  | [_, _] => rfl
  | [_, _, _] => rfl
  | _ :: _ :: _ :: _ :: rest =>
      simp only [List.length_cons] at h
      omega

/-- Witness for C2 at the concrete two-byte input `[0, 2]`. -/
theorem abort_deserialize_truncated_witness :
    ([0, 2] : List Nat).length < 4 ∧
      deserialize [0, 2] =
        Except.error MessageDeserializationError.deserializationError :=
  ⟨by decide, abort_deserialize_truncated [0, 2] (by decide)⟩

/-- C3: Abort `serialize` always succeeds, producing exactly four bytes that
are the big-endian encoding of the stream id; in particular `serialize 523`
yields `[0x00, 0x00, 0x02, 0x0B]`. -/
theorem abort_serialize_total (s : Nat) (hs : s < 2 ^ 32) :
    serialize s = Except.ok (abortBytes s) ∧
      (abortBytes s).length = 4 ∧
      ((abortBytes s).all (fun b => b < 2 ^ 8)) = true ∧
      beBytesToNat (abortBytes s) = s ∧
      serialize 523 = Except.ok [0x00, 0x00, 0x02, 0x0B] := by
  refine ⟨rfl, rfl, ?_, ?_, rfl⟩
  · simp only [abortBytes, List.all_cons, List.all_nil, Bool.and_true,
      Bool.and_eq_true, decide_eq_true_eq]
    omega
  · simp only [abortBytes, beBytesToNat, List.foldl]
    omega

/-- Witness for C3 at the concrete stream id 523. -/
theorem abort_serialize_total_witness :
    523 < 2 ^ 32 ∧
      (serialize 523 = Except.ok (abortBytes 523) ∧
        (abortBytes 523).length = 4 ∧
        ((abortBytes 523).all (fun b => b < 2 ^ 8)) = true ∧
        beBytesToNat (abortBytes 523) = 523 ∧
        serialize 523 = Except.ok [0x00, 0x00, 0x02, 0x0B]) :=
  ⟨by decide, abort_serialize_total 523 (by decide)⟩

/-- C9: on every input of at least four bytes (each a byte value), Abort
`deserialize` succeeds with the big-endian 32-bit value of the first four
bytes, ignoring any trailing bytes. -/
theorem abort_deserialize_long_input (b0 b1 b2 b3 : Nat) (rest : List Nat)
    (h0 : b0 < 2 ^ 8) (h1 : b1 < 2 ^ 8) (h2 : b2 < 2 ^ 8) (h3 : b3 < 2 ^ 8) :
    deserialize (b0 :: b1 :: b2 :: b3 :: rest) =
        Except.ok (RtmpMessage.abort (beBytesToNat [b0, b1, b2, b3])) ∧
      beBytesToNat [b0, b1, b2, b3] < 2 ^ 32 := by
  constructor
  · have h : b0 * 2 ^ 24 + b1 * 2 ^ 16 + b2 * 2 ^ 8 + b3 =
        beBytesToNat [b0, b1, b2, b3] := by
      simp only [beBytesToNat, List.foldl]
      omega
    simp only [deserialize, h]
  · simp only [beBytesToNat, List.foldl]
    omega

/-- Witness for C9 at the concrete input `[0, 0, 2, 11, 99]` (one trailing
byte). -/
theorem abort_deserialize_long_input_witness :
    (0 < 2 ^ 8 ∧ 0 < 2 ^ 8 ∧ 2 < 2 ^ 8 ∧ 11 < 2 ^ 8) ∧
      (deserialize [0, 0, 2, 11, 99] =
          Except.ok (RtmpMessage.abort (beBytesToNat [0, 0, 2, 11])) ∧
        beBytesToNat [0, 0, 2, 11] < 2 ^ 32) :=
  ⟨by decide,
    abort_deserialize_long_input 0 0 2 11 [99]
      (by decide) (by decide) (by decide) (by decide)⟩

/-- C8: registering a transaction and taking it returns exactly the
registered entry and removes it, after which taking the same id reports
`UnknownTransactionError`; in general `take` on an id with no registered
entry reports `UnknownTransactionError`. -/
theorem ledger_register_take (l : TransactionLedger) (id : Nat)
    (h : l.lookup id = none) :
    TransactionLedger.take
        (TransactionLedger.register l id
          (OutstandingTransaction.connectionRequested "live")) id =
        Except.ok (OutstandingTransaction.connectionRequested "live", l) ∧
      TransactionLedger.take l id =
        Except.error UnknownTransactionError.unknownTransaction := by
  constructor
  · have hfs := ledger_filter_eq_self l id h
    simp [TransactionLedger.take, TransactionLedger.register, List.lookup,
      List.filter, hfs]
  · simp [TransactionLedger.take, h]

/-- Witness for C8: the empty ledger, transaction id 7. -/
theorem ledger_register_take_witness :
    (([] : TransactionLedger).lookup 7 = none) ∧
      (TransactionLedger.take
          (TransactionLedger.register ([] : TransactionLedger) 7
            (OutstandingTransaction.connectionRequested "live")) 7 =
          Except.ok (OutstandingTransaction.connectionRequested "live", []) ∧
        TransactionLedger.take ([] : TransactionLedger) 7 =
          Except.error UnknownTransactionError.unknownTransaction) :=
  ⟨by decide, ledger_register_take [] 7 (by decide)⟩


/-! ## Field-wise characterization of `apply_metadata_values` -/

/-- A fold whose keys all differ from `kf` does not change the field read by
`g`, provided one step with a key other than `kf` does not change it. -/
theorem apply_frame {α : Type} (g : StreamMetadata → Option α) (kf : String)
    (h1 : ∀ md k v, ¬k = kf → g (applyMetadataValue md k v) = g md)
    (props : List (String × Amf0Value)) :
    ∀ md : StreamMetadata, (∀ p ∈ props, ¬p.1 = kf) →
      g (StreamMetadata.apply_metadata_values md props) = g md := by
  induction props with
  | nil => intro md _; rfl
  | cons p rest ih =>
      intro md habs
      have hstep : StreamMetadata.apply_metadata_values md (p :: rest) =
          StreamMetadata.apply_metadata_values (applyMetadataValue md p.1 p.2) rest := rfl
      rw [hstep, ih _ (fun x hx => habs x (List.mem_cons_of_mem p hx)),
        h1 md p.1 p.2 (habs p (List.mem_cons_self p rest))]

theorem apply_char {α : Type} (g : StreamMetadata → Option α) (kf : String)
    (e : Amf0Value → Option α)
    (h1 : ∀ md k v, ¬k = kf → g (applyMetadataValue md k v) = g md)
    (h2 : ∀ md v, g (applyMetadataValue md kf v) = (e v).or (g md))
    (props : List (String × Amf0Value)) :
    ∀ md : StreamMetadata, (props.map Prod.fst).Nodup →
      g (StreamMetadata.apply_metadata_values md props) =
        ((props.lookup kf).bind e).or (g md) := by
  induction props with
  | nil => intro md _; rfl
  | cons p rest ih =>
      intro md hnd
      obtain ⟨k, v⟩ := p
      rw [List.map_cons, List.nodup_cons] at hnd
      have hstep : StreamMetadata.apply_metadata_values md ((k, v) :: rest) =
          StreamMetadata.apply_metadata_values (applyMetadataValue md k v) rest := rfl
      by_cases hk : k = kf
      · subst hk
        have habs : ∀ x ∈ rest, ¬Prod.fst x = k := by
          intro x hx hxk
          exact hnd.1 (List.mem_map.mpr ⟨x, hx, hxk⟩)
        have hlook : List.lookup k ((k, v) :: rest) = some v := by
          simp [List.lookup]
        rw [hstep, apply_frame g k h1 rest _ habs, h2, hlook, Option.some_bind]
      · have hbeq : (kf == k) = false := by
          simp only [beq_eq_false_iff_ne, ne_eq]
          exact fun h => hk h.symm
        have hlook : List.lookup kf ((k, v) :: rest) = List.lookup kf rest := by
          simp [List.lookup, hbeq]
        rw [hstep, ih _ hnd.2, h1 md k v hk, hlook]

/-- Complete characterization of one step of the metadata loop: exactly the
field keyed by `k` is overwritten, and only when the value kind matches. -/
theorem applyOne_char (md : StreamMetadata) (k : String) (v : Amf0Value) :
    applyMetadataValue md k v =
      {
        video_width := if k = "width" then ((v.get_number).map f64AsU32).or md.video_width else md.video_width
        video_height := if k = "height" then ((v.get_number).map f64AsU32).or md.video_height else md.video_height
        video_codec := if k = "videocodecid" then (v.get_number).or md.video_codec else md.video_codec
        video_frame_rate := if k = "framerate" then ((v.get_number).map f64AsF32).or md.video_frame_rate else md.video_frame_rate
        video_bitrate_kbps := if k = "videodatarate" then ((v.get_number).map f64AsU32).or md.video_bitrate_kbps else md.video_bitrate_kbps
        audio_codec := if k = "audiocodecid" then (v.get_number).or md.audio_codec else md.audio_codec
        audio_bitrate_kbps := if k = "audiodatarate" then ((v.get_number).map f64AsU32).or md.audio_bitrate_kbps else md.audio_bitrate_kbps
        audio_sample_rate := if k = "audiosamplerate" then ((v.get_number).map f64AsU32).or md.audio_sample_rate else md.audio_sample_rate
        audio_channels := if k = "audiochannels" then ((v.get_number).map f64AsU32).or md.audio_channels else md.audio_channels
        audio_is_stereo := if k = "stereo" then (v.get_boolean).or md.audio_is_stereo else md.audio_is_stereo
        encoder := if k = "encoder" then (v.get_string).or md.encoder else md.encoder } := by
  by_cases h1 : k = "width"
  · subst h1
    cases v <;>
      simp [applyMetadataValue, Amf0Value.get_number, Amf0Value.get_boolean,
        Amf0Value.get_string, Option.or]
  by_cases h2 : k = "height"
  · subst h2
    cases v <;>
      simp [applyMetadataValue, Amf0Value.get_number, Amf0Value.get_boolean,
        Amf0Value.get_string, Option.or]
  by_cases h3 : k = "videocodecid"
  · subst h3
    cases v <;>
      simp [applyMetadataValue, Amf0Value.get_number, Amf0Value.get_boolean,
        Amf0Value.get_string, Option.or]
  by_cases h4 : k = "framerate"
  · subst h4
    cases v <;>
      simp [applyMetadataValue, Amf0Value.get_number, Amf0Value.get_boolean,
        Amf0Value.get_string, Option.or]
  by_cases h5 : k = "videodatarate"
  · subst h5
    cases v <;>
      simp [applyMetadataValue, Amf0Value.get_number, Amf0Value.get_boolean,
        Amf0Value.get_string, Option.or]
  by_cases h6 : k = "audiocodecid"
  · subst h6
    cases v <;>
      simp [applyMetadataValue, Amf0Value.get_number, Amf0Value.get_boolean,
        Amf0Value.get_string, Option.or]
  by_cases h7 : k = "audiodatarate"
  · subst h7
    cases v <;>
      simp [applyMetadataValue, Amf0Value.get_number, Amf0Value.get_boolean,
        Amf0Value.get_string, Option.or]
  by_cases h8 : k = "audiosamplerate"
  · subst h8
    cases v <;>
      simp [applyMetadataValue, Amf0Value.get_number, Amf0Value.get_boolean,
        Amf0Value.get_string, Option.or]
  by_cases h9 : k = "audiochannels"
  · subst h9
    cases v <;>
      simp [applyMetadataValue, Amf0Value.get_number, Amf0Value.get_boolean,
        Amf0Value.get_string, Option.or]
  by_cases h10 : k = "stereo"
  · subst h10
    cases v <;>
      simp [applyMetadataValue, Amf0Value.get_number, Amf0Value.get_boolean,
        Amf0Value.get_string, Option.or]
  by_cases h11 : k = "encoder"
  · subst h11
    cases v <;>
      simp [applyMetadataValue, Amf0Value.get_number, Amf0Value.get_boolean,
        Amf0Value.get_string, Option.or]
  simp [applyMetadataValue, h1, h2, h3, h4, h5, h6, h7, h8, h9, h10, h11, Option.or]

theorem applyOne_video_width_other (md : StreamMetadata) (k : String)
    (v : Amf0Value) (hk : ¬k = "width") :
    (applyMetadataValue md k v).video_width = md.video_width := by
  rw [applyOne_char]
  simp [hk]

theorem applyOne_video_width_self (md : StreamMetadata) (v : Amf0Value) :
    (applyMetadataValue md "width" v).video_width =
      ((v.get_number).map f64AsU32).or md.video_width := by
  rw [applyOne_char]
  simp

theorem applyOne_video_height_other (md : StreamMetadata) (k : String)
    (v : Amf0Value) (hk : ¬k = "height") :
    (applyMetadataValue md k v).video_height = md.video_height := by
  rw [applyOne_char]
  simp [hk]

theorem applyOne_video_height_self (md : StreamMetadata) (v : Amf0Value) :
    (applyMetadataValue md "height" v).video_height =
      ((v.get_number).map f64AsU32).or md.video_height := by
  rw [applyOne_char]
  simp

theorem applyOne_video_codec_other (md : StreamMetadata) (k : String)
    (v : Amf0Value) (hk : ¬k = "videocodecid") :
    (applyMetadataValue md k v).video_codec = md.video_codec := by
  rw [applyOne_char]
  simp [hk]

theorem applyOne_video_codec_self (md : StreamMetadata) (v : Amf0Value) :
    (applyMetadataValue md "videocodecid" v).video_codec =
      (v.get_number).or md.video_codec := by
  rw [applyOne_char]
  simp

theorem applyOne_video_frame_rate_other (md : StreamMetadata) (k : String)
    (v : Amf0Value) (hk : ¬k = "framerate") :
    (applyMetadataValue md k v).video_frame_rate = md.video_frame_rate := by
  rw [applyOne_char]
  simp [hk]

theorem applyOne_video_frame_rate_self (md : StreamMetadata) (v : Amf0Value) :
    (applyMetadataValue md "framerate" v).video_frame_rate =
      ((v.get_number).map f64AsF32).or md.video_frame_rate := by
  rw [applyOne_char]
  simp

theorem applyOne_video_bitrate_kbps_other (md : StreamMetadata) (k : String)
    (v : Amf0Value) (hk : ¬k = "videodatarate") :
    (applyMetadataValue md k v).video_bitrate_kbps = md.video_bitrate_kbps := by
  rw [applyOne_char]
  simp [hk]

theorem applyOne_video_bitrate_kbps_self (md : StreamMetadata) (v : Amf0Value) :
    (applyMetadataValue md "videodatarate" v).video_bitrate_kbps =
      ((v.get_number).map f64AsU32).or md.video_bitrate_kbps := by
  rw [applyOne_char]
  simp

theorem applyOne_audio_codec_other (md : StreamMetadata) (k : String)
    (v : Amf0Value) (hk : ¬k = "audiocodecid") :
    (applyMetadataValue md k v).audio_codec = md.audio_codec := by
  rw [applyOne_char]
  simp [hk]

theorem applyOne_audio_codec_self (md : StreamMetadata) (v : Amf0Value) :
    (applyMetadataValue md "audiocodecid" v).audio_codec =
      (v.get_number).or md.audio_codec := by
  rw [applyOne_char]
  simp

theorem applyOne_audio_bitrate_kbps_other (md : StreamMetadata) (k : String)
    (v : Amf0Value) (hk : ¬k = "audiodatarate") :
    (applyMetadataValue md k v).audio_bitrate_kbps = md.audio_bitrate_kbps := by
  rw [applyOne_char]
  simp [hk]

theorem applyOne_audio_bitrate_kbps_self (md : StreamMetadata) (v : Amf0Value) :
    (applyMetadataValue md "audiodatarate" v).audio_bitrate_kbps =
      ((v.get_number).map f64AsU32).or md.audio_bitrate_kbps := by
  rw [applyOne_char]
  simp

theorem applyOne_audio_sample_rate_other (md : StreamMetadata) (k : String)
    (v : Amf0Value) (hk : ¬k = "audiosamplerate") :
    (applyMetadataValue md k v).audio_sample_rate = md.audio_sample_rate := by
  rw [applyOne_char]
  simp [hk]

theorem applyOne_audio_sample_rate_self (md : StreamMetadata) (v : Amf0Value) :
    (applyMetadataValue md "audiosamplerate" v).audio_sample_rate =
      ((v.get_number).map f64AsU32).or md.audio_sample_rate := by
  rw [applyOne_char]
  simp

theorem applyOne_audio_channels_other (md : StreamMetadata) (k : String)
    (v : Amf0Value) (hk : ¬k = "audiochannels") :
    (applyMetadataValue md k v).audio_channels = md.audio_channels := by
  rw [applyOne_char]
  simp [hk]

theorem applyOne_audio_channels_self (md : StreamMetadata) (v : Amf0Value) :
    (applyMetadataValue md "audiochannels" v).audio_channels =
      ((v.get_number).map f64AsU32).or md.audio_channels := by
  rw [applyOne_char]
  simp

theorem applyOne_audio_is_stereo_other (md : StreamMetadata) (k : String)
    (v : Amf0Value) (hk : ¬k = "stereo") :
    (applyMetadataValue md k v).audio_is_stereo = md.audio_is_stereo := by
  rw [applyOne_char]
  simp [hk]

theorem applyOne_audio_is_stereo_self (md : StreamMetadata) (v : Amf0Value) :
    (applyMetadataValue md "stereo" v).audio_is_stereo =
      (v.get_boolean).or md.audio_is_stereo := by
  rw [applyOne_char]
  simp

theorem applyOne_encoder_other (md : StreamMetadata) (k : String)
    (v : Amf0Value) (hk : ¬k = "encoder") :
    (applyMetadataValue md k v).encoder = md.encoder := by
  rw [applyOne_char]
  simp [hk]

theorem applyOne_encoder_self (md : StreamMetadata) (v : Amf0Value) :
    (applyMetadataValue md "encoder" v).encoder =
      (v.get_string).or md.encoder := by
  rw [applyOne_char]
  simp

/-- The `video_width` field after the whole fold is determined by the `"width"`
binding of the property map. -/
theorem apply_video_width_char (md : StreamMetadata)
    (props : List (String × Amf0Value)) (hnd : (props.map Prod.fst).Nodup) :
    (StreamMetadata.apply_metadata_values md props).video_width =
      ((props.lookup "width").bind (fun v => (v.get_number).map f64AsU32)).or md.video_width :=
  apply_char _ "width" _ applyOne_video_width_other applyOne_video_width_self props md hnd

/-- The `video_height` field after the whole fold is determined by the `"height"`
binding of the property map. -/
theorem apply_video_height_char (md : StreamMetadata)
    (props : List (String × Amf0Value)) (hnd : (props.map Prod.fst).Nodup) :
    (StreamMetadata.apply_metadata_values md props).video_height =
      ((props.lookup "height").bind (fun v => (v.get_number).map f64AsU32)).or md.video_height :=
  apply_char _ "height" _ applyOne_video_height_other applyOne_video_height_self props md hnd

/-- The `video_codec` field after the whole fold is determined by the `"videocodecid"`
binding of the property map. -/
theorem apply_video_codec_char (md : StreamMetadata)
    (props : List (String × Amf0Value)) (hnd : (props.map Prod.fst).Nodup) :
    (StreamMetadata.apply_metadata_values md props).video_codec =
      ((props.lookup "videocodecid").bind (fun v => v.get_number)).or md.video_codec :=
  apply_char _ "videocodecid" _ applyOne_video_codec_other applyOne_video_codec_self props md hnd

/-- The `video_frame_rate` field after the whole fold is determined by the `"framerate"`
binding of the property map. -/
theorem apply_video_frame_rate_char (md : StreamMetadata)
    (props : List (String × Amf0Value)) (hnd : (props.map Prod.fst).Nodup) :
    (StreamMetadata.apply_metadata_values md props).video_frame_rate =
      ((props.lookup "framerate").bind (fun v => (v.get_number).map f64AsF32)).or md.video_frame_rate :=
  apply_char _ "framerate" _ applyOne_video_frame_rate_other applyOne_video_frame_rate_self props md hnd

/-- The `video_bitrate_kbps` field after the whole fold is determined by the `"videodatarate"`
binding of the property map. -/
theorem apply_video_bitrate_kbps_char (md : StreamMetadata)
    (props : List (String × Amf0Value)) (hnd : (props.map Prod.fst).Nodup) :
    (StreamMetadata.apply_metadata_values md props).video_bitrate_kbps =
      ((props.lookup "videodatarate").bind (fun v => (v.get_number).map f64AsU32)).or md.video_bitrate_kbps :=
  apply_char _ "videodatarate" _ applyOne_video_bitrate_kbps_other applyOne_video_bitrate_kbps_self props md hnd

/-- The `audio_codec` field after the whole fold is determined by the `"audiocodecid"`
binding of the property map. -/
theorem apply_audio_codec_char (md : StreamMetadata)
    (props : List (String × Amf0Value)) (hnd : (props.map Prod.fst).Nodup) :
    (StreamMetadata.apply_metadata_values md props).audio_codec =
      ((props.lookup "audiocodecid").bind (fun v => v.get_number)).or md.audio_codec :=
  apply_char _ "audiocodecid" _ applyOne_audio_codec_other applyOne_audio_codec_self props md hnd

/-- The `audio_bitrate_kbps` field after the whole fold is determined by the `"audiodatarate"`
binding of the property map. -/
theorem apply_audio_bitrate_kbps_char (md : StreamMetadata)
    (props : List (String × Amf0Value)) (hnd : (props.map Prod.fst).Nodup) :
    (StreamMetadata.apply_metadata_values md props).audio_bitrate_kbps =
      ((props.lookup "audiodatarate").bind (fun v => (v.get_number).map f64AsU32)).or md.audio_bitrate_kbps :=
  apply_char _ "audiodatarate" _ applyOne_audio_bitrate_kbps_other applyOne_audio_bitrate_kbps_self props md hnd

/-- The `audio_sample_rate` field after the whole fold is determined by the `"audiosamplerate"`
binding of the property map. -/
theorem apply_audio_sample_rate_char (md : StreamMetadata)
    (props : List (String × Amf0Value)) (hnd : (props.map Prod.fst).Nodup) :
    (StreamMetadata.apply_metadata_values md props).audio_sample_rate =
      ((props.lookup "audiosamplerate").bind (fun v => (v.get_number).map f64AsU32)).or md.audio_sample_rate :=
  apply_char _ "audiosamplerate" _ applyOne_audio_sample_rate_other applyOne_audio_sample_rate_self props md hnd

/-- The `audio_channels` field after the whole fold is determined by the `"audiochannels"`
binding of the property map. -/
theorem apply_audio_channels_char (md : StreamMetadata)
    (props : List (String × Amf0Value)) (hnd : (props.map Prod.fst).Nodup) :
    (StreamMetadata.apply_metadata_values md props).audio_channels =
      ((props.lookup "audiochannels").bind (fun v => (v.get_number).map f64AsU32)).or md.audio_channels :=
  apply_char _ "audiochannels" _ applyOne_audio_channels_other applyOne_audio_channels_self props md hnd

/-- The `audio_is_stereo` field after the whole fold is determined by the `"stereo"`
binding of the property map. -/
theorem apply_audio_is_stereo_char (md : StreamMetadata)
    (props : List (String × Amf0Value)) (hnd : (props.map Prod.fst).Nodup) :
    (StreamMetadata.apply_metadata_values md props).audio_is_stereo =
      ((props.lookup "stereo").bind (fun v => v.get_boolean)).or md.audio_is_stereo :=
  apply_char _ "stereo" _ applyOne_audio_is_stereo_other applyOne_audio_is_stereo_self props md hnd

/-- The `encoder` field after the whole fold is determined by the `"encoder"`
binding of the property map. -/
theorem apply_encoder_char (md : StreamMetadata)
    (props : List (String × Amf0Value)) (hnd : (props.map Prod.fst).Nodup) :
    (StreamMetadata.apply_metadata_values md props).encoder =
      ((props.lookup "encoder").bind (fun v => v.get_string)).or md.encoder :=
  apply_char _ "encoder" _ applyOne_encoder_other applyOne_encoder_self props md hnd

/-! ## Lookup structure of `toProps` -/

theorem lookup_append (l1 l2 : List (String × Amf0Value)) (k : String) :
    (l1 ++ l2).lookup k = (l1.lookup k).or (l2.lookup k) := by
  induction l1 with
  | nil => simp [List.lookup]
  | cons p rest ih =>
      obtain ⟨a, b⟩ := p
      by_cases h : k = a
      · subst h
        simp [List.lookup]
      · have hbeq : (k == a) = false := by simpa using h
        simp [List.lookup, hbeq, ih]

theorem lookup_optEntry (a k : String) (o : Option Amf0Value) :
    (optEntry a o).lookup k = if k = a then o else none := by
  cases o <;> by_cases h : k = a <;>
    first
      | (subst h
         simp [optEntry, List.lookup])
      | (have hbeq : (k == a) = false := by simpa using h
         simp [optEntry, List.lookup, hbeq, h])


/-- Complete lookup characterization of the map emitted by `to_amf_value`:
each recognized key maps to the widened present field, every other key is
absent. -/
theorem toProps_lookup (md : StreamMetadata) (k : String) :
    (StreamMetadata.toProps md).lookup k =
      if k = "width" then md.video_width.map (fun x => Amf0Value.number (u32AsF64 x))
      else if k = "height" then md.video_height.map (fun x => Amf0Value.number (u32AsF64 x))
      else if k = "videocodecid" then md.video_codec.map (fun x => Amf0Value.number x)
      else if k = "videodatarate" then md.video_bitrate_kbps.map (fun x => Amf0Value.number (u32AsF64 x))
      else if k = "framerate" then md.video_frame_rate.map (fun x => Amf0Value.number (f32AsF64 x))
      else if k = "audiocodecid" then md.audio_codec.map (fun x => Amf0Value.number x)
      else if k = "audiodatarate" then md.audio_bitrate_kbps.map (fun x => Amf0Value.number (u32AsF64 x))
      else if k = "audiosamplerate" then md.audio_sample_rate.map (fun x => Amf0Value.number (u32AsF64 x))
      else if k = "audiochannels" then md.audio_channels.map (fun x => Amf0Value.number (u32AsF64 x))
      else if k = "stereo" then md.audio_is_stereo.map (fun x => Amf0Value.boolean x)
      else if k = "encoder" then md.encoder.map (fun x => Amf0Value.utf8String x)
      else none := by
  by_cases h1 : k = "width"
  · subst h1
    simp [StreamMetadata.toProps, lookup_append, lookup_optEntry]
  by_cases h2 : k = "height"
  · subst h2
    simp [StreamMetadata.toProps, lookup_append, lookup_optEntry]
  by_cases h3 : k = "videocodecid"
  · subst h3
    simp [StreamMetadata.toProps, lookup_append, lookup_optEntry]
  by_cases h4 : k = "videodatarate"
  · subst h4
    simp [StreamMetadata.toProps, lookup_append, lookup_optEntry]
  by_cases h5 : k = "framerate"
  · subst h5
    simp [StreamMetadata.toProps, lookup_append, lookup_optEntry]
  by_cases h6 : k = "audiocodecid"
  · subst h6
    simp [StreamMetadata.toProps, lookup_append, lookup_optEntry]
  by_cases h7 : k = "audiodatarate"
  · subst h7
    simp [StreamMetadata.toProps, lookup_append, lookup_optEntry]
  by_cases h8 : k = "audiosamplerate"
  · subst h8
    simp [StreamMetadata.toProps, lookup_append, lookup_optEntry]
  by_cases h9 : k = "audiochannels"
  · subst h9
    simp [StreamMetadata.toProps, lookup_append, lookup_optEntry]
  by_cases h10 : k = "stereo"
  · subst h10
    simp [StreamMetadata.toProps, lookup_append, lookup_optEntry]
  by_cases h11 : k = "encoder"
  · subst h11
    simp [StreamMetadata.toProps, lookup_append, lookup_optEntry]
  simp [StreamMetadata.toProps, lookup_append, lookup_optEntry, h1, h2, h3, h4, h5, h6, h7, h8, h9, h10, h11]

theorem isSome_opt_map {α β : Type} (f : α → β) (o : Option α) :
    (o.map f).isSome = o.isSome := by
  cases o <;> rfl

theorem countP_optEntry (a kf : String) (o : Option Amf0Value) :
    (optEntry a o).countP (fun p => p.1 == kf) =
      if a = kf then (if o.isSome then 1 else 0) else 0 := by
  cases o <;> by_cases h : a = kf <;>
    first
      | (subst h
         simp [optEntry])
      | (have hbeq : (a == kf) = false := by simpa using h
         simp [optEntry, hbeq, h])

/-- Key multiplicity in the emitted property map: each key occurs once per
present field, never more. -/
theorem toProps_countP (md : StreamMetadata) (kf : String) :
    (StreamMetadata.toProps md).countP (fun p => p.1 == kf) =
      (if "width" = kf then (if md.video_width.isSome then 1 else 0) else 0) +
      (if "height" = kf then (if md.video_height.isSome then 1 else 0) else 0) +
      (if "videocodecid" = kf then (if md.video_codec.isSome then 1 else 0) else 0) +
      (if "videodatarate" = kf then (if md.video_bitrate_kbps.isSome then 1 else 0) else 0) +
      (if "framerate" = kf then (if md.video_frame_rate.isSome then 1 else 0) else 0) +
      (if "audiocodecid" = kf then (if md.audio_codec.isSome then 1 else 0) else 0) +
      (if "audiodatarate" = kf then (if md.audio_bitrate_kbps.isSome then 1 else 0) else 0) +
      (if "audiosamplerate" = kf then (if md.audio_sample_rate.isSome then 1 else 0) else 0) +
      (if "audiochannels" = kf then (if md.audio_channels.isSome then 1 else 0) else 0) +
      (if "stereo" = kf then (if md.audio_is_stereo.isSome then 1 else 0) else 0) +
      (if "encoder" = kf then (if md.encoder.isSome then 1 else 0) else 0) := by
  simp only [StreamMetadata.toProps, List.countP_append, countP_optEntry,
    isSome_opt_map]


/-- The keys of the emitted property map are distinct. -/
theorem toProps_fst_nodup (md : StreamMetadata) :
    ((StreamMetadata.toProps md).map Prod.fst).Nodup := by
  rw [List.nodup_iff_count_le_one]
  intro a
  have hc : (List.map Prod.fst (StreamMetadata.toProps md)).count a =
      (StreamMetadata.toProps md).countP (fun p => p.1 == a) := by
    rw [List.count, List.countP_map]
    rfl
  rw [hc]
  by_cases h1 : "width" = a
  · rw [← h1]
    simp only [toProps_countP]
    simp
    split_ifs <;> omega
  by_cases h2 : "height" = a
  · rw [← h2]
    simp only [toProps_countP]
    simp
    split_ifs <;> omega
  by_cases h3 : "videocodecid" = a
  · rw [← h3]
    simp only [toProps_countP]
    simp
    split_ifs <;> omega
  by_cases h4 : "videodatarate" = a
  · rw [← h4]
    simp only [toProps_countP]
    simp
    split_ifs <;> omega
  by_cases h5 : "framerate" = a
  · rw [← h5]
    simp only [toProps_countP]
    simp
    split_ifs <;> omega
  by_cases h6 : "audiocodecid" = a
  · rw [← h6]
    simp only [toProps_countP]
    simp
    split_ifs <;> omega
  by_cases h7 : "audiodatarate" = a
  · rw [← h7]
    simp only [toProps_countP]
    simp
    split_ifs <;> omega
  by_cases h8 : "audiosamplerate" = a
  · rw [← h8]
    simp only [toProps_countP]
    simp
    split_ifs <;> omega
  by_cases h9 : "audiochannels" = a
  · rw [← h9]
    simp only [toProps_countP]
    simp
    split_ifs <;> omega
  by_cases h10 : "stereo" = a
  · rw [← h10]
    simp only [toProps_countP]
    simp
    split_ifs <;> omega
  by_cases h11 : "encoder" = a
  · rw [← h11]
    simp only [toProps_countP]
    simp
    split_ifs <;> omega
  rw [toProps_countP]
  simp [h1, h2, h3, h4, h5, h6, h7, h8, h9, h10, h11]

/-- A key outside the recognized set leaves the record untouched. -/
theorem applyOne_unrecognized (md : StreamMetadata) (k : String)
    (v : Amf0Value) (hk : ¬k ∈ recognizedKeys) :
    applyMetadataValue md k v = md := by
  simp only [recognizedKeys, List.mem_cons, List.not_mem_nil, or_false] at hk
  push_neg at hk
  obtain ⟨n1, n2, n3, n4, n5, n6, n7, n8, n9, n10, n11⟩ := hk
  simp [applyMetadataValue, n1, n2, n3, n4, n5, n6, n7, n8, n9, n10, n11]

/-- Dropping the unrecognized bindings of a property map does not change
the result of the metadata loop: foreign keys are ignored entirely. -/
theorem apply_filter_recognized (props : List (String × Amf0Value)) :
    ∀ md : StreamMetadata,
      StreamMetadata.apply_metadata_values md
          (props.filter (fun p => decide (p.1 ∈ recognizedKeys))) =
        StreamMetadata.apply_metadata_values md props := by
  induction props with
  | nil => intro md; rfl
  | cons p rest ih =>
      intro md
      have hstep : StreamMetadata.apply_metadata_values md (p :: rest) =
          StreamMetadata.apply_metadata_values (applyMetadataValue md p.1 p.2) rest := rfl
      by_cases hk : p.1 ∈ recognizedKeys
      · rw [List.filter_cons_of_pos (by simpa using hk), hstep]
        have hstep2 : StreamMetadata.apply_metadata_values md
            (p :: rest.filter (fun p => decide (p.1 ∈ recognizedKeys))) =
            StreamMetadata.apply_metadata_values (applyMetadataValue md p.1 p.2)
              (rest.filter (fun p => decide (p.1 ∈ recognizedKeys))) := rfl
        rw [hstep2, ih]
      · rw [List.filter_cons_of_neg (by simpa using hk), hstep,
          applyOne_unrecognized md p.1 p.2 hk, ih]

/-! ## Reachability invariant -/

theorem reachable_new : ReachableMD StreamMetadata.new := by
  refine ⟨?_, ?_, ?_, ?_, ?_, ?_, ?_⟩ <;> intro x hx <;>
    simp [StreamMetadata.new] at hx

theorem reachable_applyOne (md : StreamMetadata) (k : String) (v : Amf0Value)
    (h : ReachableMD md) : ReachableMD (applyMetadataValue md k v) := by
  obtain ⟨h1, h2, h3, h4, h5, h6, h7⟩ := h
  rw [applyOne_char]
  refine ⟨?_, ?_, ?_, ?_, ?_, ?_, ?_⟩
  · intro x hx
    simp only at hx
    split_ifs at hx with hk
    · rcases hn : v.get_number with _ | q
      · rw [hn] at hx
        simp [Option.or] at hx
        exact h1 x (by simpa using hx)
      · rw [hn] at hx
        simp [Option.or] at hx
        exact hx ▸ f64AsU32_lt q
    · exact h1 x hx
  · intro x hx
    simp only at hx
    split_ifs at hx with hk
    · rcases hn : v.get_number with _ | q
      · rw [hn] at hx
        simp [Option.or] at hx
        exact h2 x (by simpa using hx)
      · rw [hn] at hx
        simp [Option.or] at hx
        exact hx ▸ f64AsU32_lt q
    · exact h2 x hx
  · intro x hx
    simp only at hx
    split_ifs at hx with hk
    · rcases hn : v.get_number with _ | q
      · rw [hn] at hx
        simp [Option.or] at hx
        exact h3 x (by simpa using hx)
      · rw [hn] at hx
        simp [Option.or] at hx
        rw [← hx]
        exact f64AsF32_idem q
    · exact h3 x hx
  · intro x hx
    simp only at hx
    split_ifs at hx with hk
    · rcases hn : v.get_number with _ | q
      · rw [hn] at hx
        simp [Option.or] at hx
        exact h4 x (by simpa using hx)
      · rw [hn] at hx
        simp [Option.or] at hx
        exact hx ▸ f64AsU32_lt q
    · exact h4 x hx
  · intro x hx
    simp only at hx
    split_ifs at hx with hk
    · rcases hn : v.get_number with _ | q
      · rw [hn] at hx
        simp [Option.or] at hx
        exact h5 x (by simpa using hx)
      · rw [hn] at hx
        simp [Option.or] at hx
        exact hx ▸ f64AsU32_lt q
    · exact h5 x hx
  · intro x hx
    simp only at hx
    split_ifs at hx with hk
    · rcases hn : v.get_number with _ | q
      · rw [hn] at hx
        simp [Option.or] at hx
        exact h6 x (by simpa using hx)
      · rw [hn] at hx
        simp [Option.or] at hx
        exact hx ▸ f64AsU32_lt q
    · exact h6 x hx
  · intro x hx
    simp only at hx
    split_ifs at hx with hk
    · rcases hn : v.get_number with _ | q
      · rw [hn] at hx
        simp [Option.or] at hx
        exact h7 x (by simpa using hx)
      · rw [hn] at hx
        simp [Option.or] at hx
        exact hx ▸ f64AsU32_lt q
    · exact h7 x hx

theorem reachable_apply (props : List (String × Amf0Value)) :
    ∀ md : StreamMetadata, ReachableMD md →
      ReachableMD (StreamMetadata.apply_metadata_values md props) := by
  induction props with
  | nil => intro md h; exact h
  | cons p rest ih =>
      intro md h
      exact ih (applyMetadataValue md p.1 p.2) (reachable_applyOne md p.1 p.2 h)


/-! ## Helper lemmas about emitted keys and lookups -/

theorem mem_optEntry (a : String) (o : Option Amf0Value)
    (p : String × Amf0Value) (hp : p ∈ optEntry a o) : p.1 = a := by
  cases o with
  | none => simp [optEntry] at hp
  | some v =>
      simp [optEntry] at hp
      rw [hp]

theorem toProps_keys_recognized (md : StreamMetadata) :
    ∀ p ∈ StreamMetadata.toProps md, p.1 ∈ recognizedKeys := by
  intro p hp
  simp only [StreamMetadata.toProps, List.mem_append] at hp
  rcases hp with ((((((((((h | h) | h) | h) | h) | h) | h) | h) | h) | h) | h) <;>
    rw [mem_optEntry _ _ _ h] <;> simp [recognizedKeys]

theorem optEntry_length_le (a : String) (o : Option Amf0Value) :
    (optEntry a o).length ≤ 1 := by
  cases o <;> simp [optEntry]

theorem mem_map_fst_iff_lookup (l : List (String × Amf0Value)) (a : String) :
    a ∈ l.map Prod.fst ↔ (l.lookup a).isSome = true := by
  induction l with
  | nil => simp [List.lookup]
  | cons p rest ih =>
      obtain ⟨k, w⟩ := p
      by_cases h : a = k
      · subst h
        simp [List.lookup]
      · have hbeq : (a == k) = false := by simpa using h
        simp [List.lookup, hbeq, h, ih]

theorem lookup_some_mem (l : List (String × Amf0Value)) (a : String)
    (v : Amf0Value) (h : l.lookup a = some v) : (a, v) ∈ l := by
  induction l with
  | nil => simp [List.lookup] at h
  | cons p rest ih =>
      obtain ⟨k, w⟩ := p
      by_cases hk : a = k
      · subst hk
        simp [List.lookup] at h
        rw [← h]
        exact List.mem_cons_self _ _
      · have hbeq : (a == k) = false := by simpa using hk
        simp only [List.lookup, hbeq] at h
        exact List.mem_cons_of_mem _ (ih h)


/-- Lookup refinement for the whole round trip: for every key, the map
emitted after parsing an arbitrary property map holds exactly the
spec-narrowed value of that key's binding. -/
theorem toProps_apply_lookup (props : List (String × Amf0Value))
    (hnd : (props.map Prod.fst).Nodup) (a : String) :
    (StreamMetadata.toProps
        (StreamMetadata.apply_metadata_values StreamMetadata.new props)).lookup a =
      (props.lookup a).bind (specNarrowedValue a) := by
  by_cases h1 : a = "width"
  · subst h1
    rw [toProps_lookup, apply_video_width_char StreamMetadata.new props hnd]
    rcases hl : props.lookup "width" with _ | v
    · simp [StreamMetadata.new, Option.or, specNarrowedValue]
    · cases v <;>
        simp [StreamMetadata.new, Option.or, specNarrowedValue, recognizedKeys,
          Amf0Value.get_number, Amf0Value.get_boolean, Amf0Value.get_string]
  by_cases h2 : a = "height"
  · subst h2
    rw [toProps_lookup, apply_video_height_char StreamMetadata.new props hnd]
    rcases hl : props.lookup "height" with _ | v
    · simp [StreamMetadata.new, Option.or, specNarrowedValue]
    · cases v <;>
        simp [StreamMetadata.new, Option.or, specNarrowedValue, recognizedKeys,
          Amf0Value.get_number, Amf0Value.get_boolean, Amf0Value.get_string]
  by_cases h3 : a = "videocodecid"
  · subst h3
    rw [toProps_lookup, apply_video_codec_char StreamMetadata.new props hnd]
    rcases hl : props.lookup "videocodecid" with _ | v
    · simp [StreamMetadata.new, Option.or, specNarrowedValue]
    · cases v <;>
        simp [StreamMetadata.new, Option.or, specNarrowedValue, recognizedKeys,
          Amf0Value.get_number, Amf0Value.get_boolean, Amf0Value.get_string]
  by_cases h4 : a = "framerate"
  · subst h4
    rw [toProps_lookup, apply_video_frame_rate_char StreamMetadata.new props hnd]
    rcases hl : props.lookup "framerate" with _ | v
    · simp [StreamMetadata.new, Option.or, specNarrowedValue]
    · cases v <;>
        simp [StreamMetadata.new, Option.or, specNarrowedValue, recognizedKeys,
          Amf0Value.get_number, Amf0Value.get_boolean, Amf0Value.get_string]
  by_cases h5 : a = "videodatarate"
  · subst h5
    rw [toProps_lookup, apply_video_bitrate_kbps_char StreamMetadata.new props hnd]
    rcases hl : props.lookup "videodatarate" with _ | v
    · simp [StreamMetadata.new, Option.or, specNarrowedValue]
    · cases v <;>
        simp [StreamMetadata.new, Option.or, specNarrowedValue, recognizedKeys,
          Amf0Value.get_number, Amf0Value.get_boolean, Amf0Value.get_string]
  by_cases h6 : a = "audiocodecid"
  · subst h6
    rw [toProps_lookup, apply_audio_codec_char StreamMetadata.new props hnd]
    rcases hl : props.lookup "audiocodecid" with _ | v
    · simp [StreamMetadata.new, Option.or, specNarrowedValue]
    · cases v <;>
        simp [StreamMetadata.new, Option.or, specNarrowedValue, recognizedKeys,
          Amf0Value.get_number, Amf0Value.get_boolean, Amf0Value.get_string]
  by_cases h7 : a = "audiodatarate"
  · subst h7
    rw [toProps_lookup, apply_audio_bitrate_kbps_char StreamMetadata.new props hnd]
    rcases hl : props.lookup "audiodatarate" with _ | v
    · simp [StreamMetadata.new, Option.or, specNarrowedValue]
    · cases v <;>
        simp [StreamMetadata.new, Option.or, specNarrowedValue, recognizedKeys,
          Amf0Value.get_number, Amf0Value.get_boolean, Amf0Value.get_string]
  by_cases h8 : a = "audiosamplerate"
  · subst h8
    rw [toProps_lookup, apply_audio_sample_rate_char StreamMetadata.new props hnd]
    rcases hl : props.lookup "audiosamplerate" with _ | v
    · simp [StreamMetadata.new, Option.or, specNarrowedValue]
    · cases v <;>
        simp [StreamMetadata.new, Option.or, specNarrowedValue, recognizedKeys,
          Amf0Value.get_number, Amf0Value.get_boolean, Amf0Value.get_string]
  by_cases h9 : a = "audiochannels"
  · subst h9
    rw [toProps_lookup, apply_audio_channels_char StreamMetadata.new props hnd]
    rcases hl : props.lookup "audiochannels" with _ | v
    · simp [StreamMetadata.new, Option.or, specNarrowedValue]
    · cases v <;>
        simp [StreamMetadata.new, Option.or, specNarrowedValue, recognizedKeys,
          Amf0Value.get_number, Amf0Value.get_boolean, Amf0Value.get_string]
  by_cases h10 : a = "stereo"
  · subst h10
    rw [toProps_lookup, apply_audio_is_stereo_char StreamMetadata.new props hnd]
    rcases hl : props.lookup "stereo" with _ | v
    · simp [StreamMetadata.new, Option.or, specNarrowedValue]
    · cases v <;>
        simp [StreamMetadata.new, Option.or, specNarrowedValue, recognizedKeys,
          Amf0Value.get_number, Amf0Value.get_boolean, Amf0Value.get_string]
  by_cases h11 : a = "encoder"
  · subst h11
    rw [toProps_lookup, apply_encoder_char StreamMetadata.new props hnd]
    rcases hl : props.lookup "encoder" with _ | v
    · simp [StreamMetadata.new, Option.or, specNarrowedValue]
    · cases v <;>
        simp [StreamMetadata.new, Option.or, specNarrowedValue, recognizedKeys,
          Amf0Value.get_number, Amf0Value.get_boolean, Amf0Value.get_string]
  rw [toProps_lookup]
  rcases hl : props.lookup a with _ | v
  · simp [h1, h2, h3, h4, h5, h6, h7, h8, h9, h10, h11]
  · cases v <;>
      simp [h1, h2, h3, h4, h5, h6, h7, h8, h9, h10, h11, specNarrowedValue, recognizedKeys,
        Amf0Value.get_number, Amf0Value.get_boolean, Amf0Value.get_string]


/-! ## Claim theorems for the metadata translator -/

/-- C10: `apply_metadata_values` never clears a field: a field whose key is
absent from the map, or present with a wrong-kind value, keeps exactly its
prior value, and only a key present with a well-typed value overwrites its
field. -/
theorem apply_metadata_values_never_clears (md : StreamMetadata)
    (props : List (String × Amf0Value)) (hnd : (props.map Prod.fst).Nodup) :
    ((StreamMetadata.apply_metadata_values md props).video_width =
        ((props.lookup "width").bind (fun v => (v.get_number).map f64AsU32)).or md.video_width) ∧
    ((StreamMetadata.apply_metadata_values md props).video_height =
        ((props.lookup "height").bind (fun v => (v.get_number).map f64AsU32)).or md.video_height) ∧
    ((StreamMetadata.apply_metadata_values md props).video_codec =
        ((props.lookup "videocodecid").bind (fun v => v.get_number)).or md.video_codec) ∧
    ((StreamMetadata.apply_metadata_values md props).video_frame_rate =
        ((props.lookup "framerate").bind (fun v => (v.get_number).map f64AsF32)).or md.video_frame_rate) ∧
    ((StreamMetadata.apply_metadata_values md props).video_bitrate_kbps =
        ((props.lookup "videodatarate").bind (fun v => (v.get_number).map f64AsU32)).or md.video_bitrate_kbps) ∧
    ((StreamMetadata.apply_metadata_values md props).audio_codec =
        ((props.lookup "audiocodecid").bind (fun v => v.get_number)).or md.audio_codec) ∧
    ((StreamMetadata.apply_metadata_values md props).audio_bitrate_kbps =
        ((props.lookup "audiodatarate").bind (fun v => (v.get_number).map f64AsU32)).or md.audio_bitrate_kbps) ∧
    ((StreamMetadata.apply_metadata_values md props).audio_sample_rate =
        ((props.lookup "audiosamplerate").bind (fun v => (v.get_number).map f64AsU32)).or md.audio_sample_rate) ∧
    ((StreamMetadata.apply_metadata_values md props).audio_channels =
        ((props.lookup "audiochannels").bind (fun v => (v.get_number).map f64AsU32)).or md.audio_channels) ∧
    ((StreamMetadata.apply_metadata_values md props).audio_is_stereo =
        ((props.lookup "stereo").bind (fun v => v.get_boolean)).or md.audio_is_stereo) ∧
    ((StreamMetadata.apply_metadata_values md props).encoder =
        ((props.lookup "encoder").bind (fun v => v.get_string)).or md.encoder) :=
  ⟨apply_video_width_char md props hnd,
    apply_video_height_char md props hnd,
    apply_video_codec_char md props hnd,
    apply_video_frame_rate_char md props hnd,
    apply_video_bitrate_kbps_char md props hnd,
    apply_audio_codec_char md props hnd,
    apply_audio_bitrate_kbps_char md props hnd,
    apply_audio_sample_rate_char md props hnd,
    apply_audio_channels_char md props hnd,
    apply_audio_is_stereo_char md props hnd,
    apply_encoder_char md props hnd⟩

/-- Witness for C10: a record with two present fields, a map that overwrites
one recognized field and carries one wrong-kind binding. -/
theorem apply_metadata_values_never_clears_witness :
    ((([("width", Amf0Value.number 640), ("stereo", Amf0Value.number 1)] : List (String × Amf0Value)).map Prod.fst).Nodup) ∧
    (      ((StreamMetadata.apply_metadata_values { StreamMetadata.new with audio_is_stereo := some true, video_height := some 360 } [("width", Amf0Value.number 640), ("stereo", Amf0Value.number 1)]).video_width =
          ((([("width", Amf0Value.number 640), ("stereo", Amf0Value.number 1)] : List (String × Amf0Value)).lookup "width").bind (fun v => (v.get_number).map f64AsU32)).or ({ StreamMetadata.new with audio_is_stereo := some true, video_height := some 360 }).video_width) ∧
      ((StreamMetadata.apply_metadata_values { StreamMetadata.new with audio_is_stereo := some true, video_height := some 360 } [("width", Amf0Value.number 640), ("stereo", Amf0Value.number 1)]).video_height =
          ((([("width", Amf0Value.number 640), ("stereo", Amf0Value.number 1)] : List (String × Amf0Value)).lookup "height").bind (fun v => (v.get_number).map f64AsU32)).or ({ StreamMetadata.new with audio_is_stereo := some true, video_height := some 360 }).video_height) ∧
      ((StreamMetadata.apply_metadata_values { StreamMetadata.new with audio_is_stereo := some true, video_height := some 360 } [("width", Amf0Value.number 640), ("stereo", Amf0Value.number 1)]).video_codec =
          ((([("width", Amf0Value.number 640), ("stereo", Amf0Value.number 1)] : List (String × Amf0Value)).lookup "videocodecid").bind (fun v => v.get_number)).or ({ StreamMetadata.new with audio_is_stereo := some true, video_height := some 360 }).video_codec) ∧
      ((StreamMetadata.apply_metadata_values { StreamMetadata.new with audio_is_stereo := some true, video_height := some 360 } [("width", Amf0Value.number 640), ("stereo", Amf0Value.number 1)]).video_frame_rate =
          ((([("width", Amf0Value.number 640), ("stereo", Amf0Value.number 1)] : List (String × Amf0Value)).lookup "framerate").bind (fun v => (v.get_number).map f64AsF32)).or ({ StreamMetadata.new with audio_is_stereo := some true, video_height := some 360 }).video_frame_rate) ∧
      ((StreamMetadata.apply_metadata_values { StreamMetadata.new with audio_is_stereo := some true, video_height := some 360 } [("width", Amf0Value.number 640), ("stereo", Amf0Value.number 1)]).video_bitrate_kbps =
          ((([("width", Amf0Value.number 640), ("stereo", Amf0Value.number 1)] : List (String × Amf0Value)).lookup "videodatarate").bind (fun v => (v.get_number).map f64AsU32)).or ({ StreamMetadata.new with audio_is_stereo := some true, video_height := some 360 }).video_bitrate_kbps) ∧
      ((StreamMetadata.apply_metadata_values { StreamMetadata.new with audio_is_stereo := some true, video_height := some 360 } [("width", Amf0Value.number 640), ("stereo", Amf0Value.number 1)]).audio_codec =
          ((([("width", Amf0Value.number 640), ("stereo", Amf0Value.number 1)] : List (String × Amf0Value)).lookup "audiocodecid").bind (fun v => v.get_number)).or ({ StreamMetadata.new with audio_is_stereo := some true, video_height := some 360 }).audio_codec) ∧
      ((StreamMetadata.apply_metadata_values { StreamMetadata.new with audio_is_stereo := some true, video_height := some 360 } [("width", Amf0Value.number 640), ("stereo", Amf0Value.number 1)]).audio_bitrate_kbps =
          ((([("width", Amf0Value.number 640), ("stereo", Amf0Value.number 1)] : List (String × Amf0Value)).lookup "audiodatarate").bind (fun v => (v.get_number).map f64AsU32)).or ({ StreamMetadata.new with audio_is_stereo := some true, video_height := some 360 }).audio_bitrate_kbps) ∧
      ((StreamMetadata.apply_metadata_values { StreamMetadata.new with audio_is_stereo := some true, video_height := some 360 } [("width", Amf0Value.number 640), ("stereo", Amf0Value.number 1)]).audio_sample_rate =
          ((([("width", Amf0Value.number 640), ("stereo", Amf0Value.number 1)] : List (String × Amf0Value)).lookup "audiosamplerate").bind (fun v => (v.get_number).map f64AsU32)).or ({ StreamMetadata.new with audio_is_stereo := some true, video_height := some 360 }).audio_sample_rate) ∧
      ((StreamMetadata.apply_metadata_values { StreamMetadata.new with audio_is_stereo := some true, video_height := some 360 } [("width", Amf0Value.number 640), ("stereo", Amf0Value.number 1)]).audio_channels =
          ((([("width", Amf0Value.number 640), ("stereo", Amf0Value.number 1)] : List (String × Amf0Value)).lookup "audiochannels").bind (fun v => (v.get_number).map f64AsU32)).or ({ StreamMetadata.new with audio_is_stereo := some true, video_height := some 360 }).audio_channels) ∧
      ((StreamMetadata.apply_metadata_values { StreamMetadata.new with audio_is_stereo := some true, video_height := some 360 } [("width", Amf0Value.number 640), ("stereo", Amf0Value.number 1)]).audio_is_stereo =
          ((([("width", Amf0Value.number 640), ("stereo", Amf0Value.number 1)] : List (String × Amf0Value)).lookup "stereo").bind (fun v => v.get_boolean)).or ({ StreamMetadata.new with audio_is_stereo := some true, video_height := some 360 }).audio_is_stereo) ∧
      ((StreamMetadata.apply_metadata_values { StreamMetadata.new with audio_is_stereo := some true, video_height := some 360 } [("width", Amf0Value.number 640), ("stereo", Amf0Value.number 1)]).encoder =
          ((([("width", Amf0Value.number 640), ("stereo", Amf0Value.number 1)] : List (String × Amf0Value)).lookup "encoder").bind (fun v => v.get_string)).or ({ StreamMetadata.new with audio_is_stereo := some true, video_height := some 360 }).encoder)) :=
  ⟨by decide, apply_metadata_values_never_clears { StreamMetadata.new with audio_is_stereo := some true, video_height := some 360 }
    [("width", Amf0Value.number 640), ("stereo", Amf0Value.number 1)] (by decide)⟩

/-- C4: `apply_metadata_values` always succeeds; a recognized key that is
absent or bound to a wrong-kind value leaves its field absent (starting from
the empty record), unrecognized keys are ignored entirely, and in the
concrete example a numeric `"stereo"` leaves `audio_is_stereo` absent while
every other well-typed key still sets its field. -/
theorem apply_metadata_values_lenient
    (props : List (String × Amf0Value)) (hnd : (props.map Prod.fst).Nodup) :
    ((StreamMetadata.apply_metadata_values StreamMetadata.new props).video_width =
        (props.lookup "width").bind (fun v => (v.get_number).map f64AsU32)) ∧
    ((StreamMetadata.apply_metadata_values StreamMetadata.new props).video_height =
        (props.lookup "height").bind (fun v => (v.get_number).map f64AsU32)) ∧
    ((StreamMetadata.apply_metadata_values StreamMetadata.new props).video_codec =
        (props.lookup "videocodecid").bind (fun v => v.get_number)) ∧
    ((StreamMetadata.apply_metadata_values StreamMetadata.new props).video_frame_rate =
        (props.lookup "framerate").bind (fun v => (v.get_number).map f64AsF32)) ∧
    ((StreamMetadata.apply_metadata_values StreamMetadata.new props).video_bitrate_kbps =
        (props.lookup "videodatarate").bind (fun v => (v.get_number).map f64AsU32)) ∧
    ((StreamMetadata.apply_metadata_values StreamMetadata.new props).audio_codec =
        (props.lookup "audiocodecid").bind (fun v => v.get_number)) ∧
    ((StreamMetadata.apply_metadata_values StreamMetadata.new props).audio_bitrate_kbps =
        (props.lookup "audiodatarate").bind (fun v => (v.get_number).map f64AsU32)) ∧
    ((StreamMetadata.apply_metadata_values StreamMetadata.new props).audio_sample_rate =
        (props.lookup "audiosamplerate").bind (fun v => (v.get_number).map f64AsU32)) ∧
    ((StreamMetadata.apply_metadata_values StreamMetadata.new props).audio_channels =
        (props.lookup "audiochannels").bind (fun v => (v.get_number).map f64AsU32)) ∧
    ((StreamMetadata.apply_metadata_values StreamMetadata.new props).audio_is_stereo =
        (props.lookup "stereo").bind (fun v => v.get_boolean)) ∧
    ((StreamMetadata.apply_metadata_values StreamMetadata.new props).encoder =
        (props.lookup "encoder").bind (fun v => v.get_string)) ∧
    (StreamMetadata.apply_metadata_values StreamMetadata.new
        (props.filter (fun p => decide (p.1 ∈ recognizedKeys))) =
      StreamMetadata.apply_metadata_values StreamMetadata.new props) ∧
    (StreamMetadata.apply_metadata_values StreamMetadata.new
        ([("width", Amf0Value.number 640), ("height", Amf0Value.number 360),
        ("videocodecid", Amf0Value.number 7), ("videodatarate", Amf0Value.number 2500),
        ("audiocodecid", Amf0Value.number 10),
        ("audiodatarate", Amf0Value.number 160), ("audiosamplerate", Amf0Value.number 44100),
        ("audiochannels", Amf0Value.number 2), ("stereo", Amf0Value.number 1),
        ("encoder", Amf0Value.utf8String "obs")] : List (String × Amf0Value)) =
      { video_width := some 640, video_height := some 360, video_codec := some 7,
        video_frame_rate := none, video_bitrate_kbps := some 2500,
        audio_codec := some 10, audio_bitrate_kbps := some 160,
        audio_sample_rate := some 44100, audio_channels := some 2,
        audio_is_stereo := none, encoder := some "obs" }) := by
  refine ⟨?_, ?_, ?_, ?_, ?_, ?_, ?_, ?_, ?_, ?_, ?_, ?_, ?_⟩
  · rw [apply_video_width_char StreamMetadata.new props hnd]
    simp [StreamMetadata.new]
  · rw [apply_video_height_char StreamMetadata.new props hnd]
    simp [StreamMetadata.new]
  · rw [apply_video_codec_char StreamMetadata.new props hnd]
    simp [StreamMetadata.new]
  · rw [apply_video_frame_rate_char StreamMetadata.new props hnd]
    simp [StreamMetadata.new]
  · rw [apply_video_bitrate_kbps_char StreamMetadata.new props hnd]
    simp [StreamMetadata.new]
  · rw [apply_audio_codec_char StreamMetadata.new props hnd]
    simp [StreamMetadata.new]
  · rw [apply_audio_bitrate_kbps_char StreamMetadata.new props hnd]
    simp [StreamMetadata.new]
  · rw [apply_audio_sample_rate_char StreamMetadata.new props hnd]
    simp [StreamMetadata.new]
  · rw [apply_audio_channels_char StreamMetadata.new props hnd]
    simp [StreamMetadata.new]
  · rw [apply_audio_is_stereo_char StreamMetadata.new props hnd]
    simp [StreamMetadata.new]
  · rw [apply_encoder_char StreamMetadata.new props hnd]
    simp [StreamMetadata.new]
  · exact apply_filter_recognized props StreamMetadata.new
  · decide

/-- Witness for C4: a map with one well-typed binding and one foreign key. -/
theorem apply_metadata_values_lenient_witness :
    ((([("stereo", Amf0Value.boolean true), ("foo", Amf0Value.number 1)] : List (String × Amf0Value)).map Prod.fst).Nodup) ∧
    (      ((StreamMetadata.apply_metadata_values StreamMetadata.new ([("stereo", Amf0Value.boolean true), ("foo", Amf0Value.number 1)] : List (String × Amf0Value))).video_width =
          (([("stereo", Amf0Value.boolean true), ("foo", Amf0Value.number 1)] : List (String × Amf0Value)).lookup "width").bind (fun v => (v.get_number).map f64AsU32)) ∧
      ((StreamMetadata.apply_metadata_values StreamMetadata.new ([("stereo", Amf0Value.boolean true), ("foo", Amf0Value.number 1)] : List (String × Amf0Value))).video_height =
          (([("stereo", Amf0Value.boolean true), ("foo", Amf0Value.number 1)] : List (String × Amf0Value)).lookup "height").bind (fun v => (v.get_number).map f64AsU32)) ∧
      ((StreamMetadata.apply_metadata_values StreamMetadata.new ([("stereo", Amf0Value.boolean true), ("foo", Amf0Value.number 1)] : List (String × Amf0Value))).video_codec =
          (([("stereo", Amf0Value.boolean true), ("foo", Amf0Value.number 1)] : List (String × Amf0Value)).lookup "videocodecid").bind (fun v => v.get_number)) ∧
      ((StreamMetadata.apply_metadata_values StreamMetadata.new ([("stereo", Amf0Value.boolean true), ("foo", Amf0Value.number 1)] : List (String × Amf0Value))).video_frame_rate =
          (([("stereo", Amf0Value.boolean true), ("foo", Amf0Value.number 1)] : List (String × Amf0Value)).lookup "framerate").bind (fun v => (v.get_number).map f64AsF32)) ∧
      ((StreamMetadata.apply_metadata_values StreamMetadata.new ([("stereo", Amf0Value.boolean true), ("foo", Amf0Value.number 1)] : List (String × Amf0Value))).video_bitrate_kbps =
          (([("stereo", Amf0Value.boolean true), ("foo", Amf0Value.number 1)] : List (String × Amf0Value)).lookup "videodatarate").bind (fun v => (v.get_number).map f64AsU32)) ∧
      ((StreamMetadata.apply_metadata_values StreamMetadata.new ([("stereo", Amf0Value.boolean true), ("foo", Amf0Value.number 1)] : List (String × Amf0Value))).audio_codec =
          (([("stereo", Amf0Value.boolean true), ("foo", Amf0Value.number 1)] : List (String × Amf0Value)).lookup "audiocodecid").bind (fun v => v.get_number)) ∧
      ((StreamMetadata.apply_metadata_values StreamMetadata.new ([("stereo", Amf0Value.boolean true), ("foo", Amf0Value.number 1)] : List (String × Amf0Value))).audio_bitrate_kbps =
          (([("stereo", Amf0Value.boolean true), ("foo", Amf0Value.number 1)] : List (String × Amf0Value)).lookup "audiodatarate").bind (fun v => (v.get_number).map f64AsU32)) ∧
      ((StreamMetadata.apply_metadata_values StreamMetadata.new ([("stereo", Amf0Value.boolean true), ("foo", Amf0Value.number 1)] : List (String × Amf0Value))).audio_sample_rate =
          (([("stereo", Amf0Value.boolean true), ("foo", Amf0Value.number 1)] : List (String × Amf0Value)).lookup "audiosamplerate").bind (fun v => (v.get_number).map f64AsU32)) ∧
      ((StreamMetadata.apply_metadata_values StreamMetadata.new ([("stereo", Amf0Value.boolean true), ("foo", Amf0Value.number 1)] : List (String × Amf0Value))).audio_channels =
          (([("stereo", Amf0Value.boolean true), ("foo", Amf0Value.number 1)] : List (String × Amf0Value)).lookup "audiochannels").bind (fun v => (v.get_number).map f64AsU32)) ∧
      ((StreamMetadata.apply_metadata_values StreamMetadata.new ([("stereo", Amf0Value.boolean true), ("foo", Amf0Value.number 1)] : List (String × Amf0Value))).audio_is_stereo =
          (([("stereo", Amf0Value.boolean true), ("foo", Amf0Value.number 1)] : List (String × Amf0Value)).lookup "stereo").bind (fun v => v.get_boolean)) ∧
      ((StreamMetadata.apply_metadata_values StreamMetadata.new ([("stereo", Amf0Value.boolean true), ("foo", Amf0Value.number 1)] : List (String × Amf0Value))).encoder =
          (([("stereo", Amf0Value.boolean true), ("foo", Amf0Value.number 1)] : List (String × Amf0Value)).lookup "encoder").bind (fun v => v.get_string)) ∧
      (StreamMetadata.apply_metadata_values StreamMetadata.new
          (([("stereo", Amf0Value.boolean true), ("foo", Amf0Value.number 1)] : List (String × Amf0Value)).filter (fun p => decide (p.1 ∈ recognizedKeys))) =
        StreamMetadata.apply_metadata_values StreamMetadata.new ([("stereo", Amf0Value.boolean true), ("foo", Amf0Value.number 1)] : List (String × Amf0Value))) ∧
      (StreamMetadata.apply_metadata_values StreamMetadata.new
          ([("width", Amf0Value.number 640), ("height", Amf0Value.number 360),
          ("videocodecid", Amf0Value.number 7), ("videodatarate", Amf0Value.number 2500),
          ("audiocodecid", Amf0Value.number 10),
          ("audiodatarate", Amf0Value.number 160), ("audiosamplerate", Amf0Value.number 44100),
          ("audiochannels", Amf0Value.number 2), ("stereo", Amf0Value.number 1),
          ("encoder", Amf0Value.utf8String "obs")] : List (String × Amf0Value)) =
        { video_width := some 640, video_height := some 360, video_codec := some 7,
          video_frame_rate := none, video_bitrate_kbps := some 2500,
          audio_codec := some 10, audio_bitrate_kbps := some 160,
          audio_sample_rate := some 44100, audio_channels := some 2,
          audio_is_stereo := none, encoder := some "obs" })) :=
  ⟨by decide, apply_metadata_values_lenient [("stereo", Amf0Value.boolean true), ("foo", Amf0Value.number 1)] (by decide)⟩

/-- C7: `to_amf_value` always succeeds and emits exactly one entry per
present field under its recognized key, no entry for an absent field, and at
most eleven entries; the empty record maps to the empty object and the empty
map parses to the empty record. -/
theorem to_amf_value_entries (md : StreamMetadata) :
    ((StreamMetadata.toProps md).countP (fun p => p.1 == "width") =
        if md.video_width.isSome then 1 else 0) ∧
    ((StreamMetadata.toProps md).countP (fun p => p.1 == "height") =
        if md.video_height.isSome then 1 else 0) ∧
    ((StreamMetadata.toProps md).countP (fun p => p.1 == "videocodecid") =
        if md.video_codec.isSome then 1 else 0) ∧
    ((StreamMetadata.toProps md).countP (fun p => p.1 == "framerate") =
        if md.video_frame_rate.isSome then 1 else 0) ∧
    ((StreamMetadata.toProps md).countP (fun p => p.1 == "videodatarate") =
        if md.video_bitrate_kbps.isSome then 1 else 0) ∧
    ((StreamMetadata.toProps md).countP (fun p => p.1 == "audiocodecid") =
        if md.audio_codec.isSome then 1 else 0) ∧
    ((StreamMetadata.toProps md).countP (fun p => p.1 == "audiodatarate") =
        if md.audio_bitrate_kbps.isSome then 1 else 0) ∧
    ((StreamMetadata.toProps md).countP (fun p => p.1 == "audiosamplerate") =
        if md.audio_sample_rate.isSome then 1 else 0) ∧
    ((StreamMetadata.toProps md).countP (fun p => p.1 == "audiochannels") =
        if md.audio_channels.isSome then 1 else 0) ∧
    ((StreamMetadata.toProps md).countP (fun p => p.1 == "stereo") =
        if md.audio_is_stereo.isSome then 1 else 0) ∧
    ((StreamMetadata.toProps md).countP (fun p => p.1 == "encoder") =
        if md.encoder.isSome then 1 else 0) ∧
    ((StreamMetadata.toProps md).lookup "width" = md.video_width.map (fun x => Amf0Value.number (u32AsF64 x))) ∧
    ((StreamMetadata.toProps md).lookup "height" = md.video_height.map (fun x => Amf0Value.number (u32AsF64 x))) ∧
    ((StreamMetadata.toProps md).lookup "videocodecid" = md.video_codec.map (fun x => Amf0Value.number x)) ∧
    ((StreamMetadata.toProps md).lookup "framerate" = md.video_frame_rate.map (fun x => Amf0Value.number (f32AsF64 x))) ∧
    ((StreamMetadata.toProps md).lookup "videodatarate" = md.video_bitrate_kbps.map (fun x => Amf0Value.number (u32AsF64 x))) ∧
    ((StreamMetadata.toProps md).lookup "audiocodecid" = md.audio_codec.map (fun x => Amf0Value.number x)) ∧
    ((StreamMetadata.toProps md).lookup "audiodatarate" = md.audio_bitrate_kbps.map (fun x => Amf0Value.number (u32AsF64 x))) ∧
    ((StreamMetadata.toProps md).lookup "audiosamplerate" = md.audio_sample_rate.map (fun x => Amf0Value.number (u32AsF64 x))) ∧
    ((StreamMetadata.toProps md).lookup "audiochannels" = md.audio_channels.map (fun x => Amf0Value.number (u32AsF64 x))) ∧
    ((StreamMetadata.toProps md).lookup "stereo" = md.audio_is_stereo.map (fun x => Amf0Value.boolean x)) ∧
    ((StreamMetadata.toProps md).lookup "encoder" = md.encoder.map (fun x => Amf0Value.utf8String x)) ∧
    ((StreamMetadata.toProps md).length ≤ 11) ∧
    (∀ p ∈ StreamMetadata.toProps md, p.1 ∈ recognizedKeys) ∧
    (StreamMetadata.to_amf_value StreamMetadata.new = Amf0Value.object []) ∧
    (StreamMetadata.apply_metadata_values StreamMetadata.new [] = StreamMetadata.new) := by
  refine ⟨?_, ?_, ?_, ?_, ?_, ?_, ?_, ?_, ?_, ?_, ?_, ?_, ?_, ?_, ?_, ?_, ?_, ?_, ?_, ?_, ?_, ?_, ?_, ?_, ?_, ?_⟩
  · rw [toProps_countP]
    simp
  · rw [toProps_countP]
    simp
  · rw [toProps_countP]
    simp
  · rw [toProps_countP]
    simp
  · rw [toProps_countP]
    simp
  · rw [toProps_countP]
    simp
  · rw [toProps_countP]
    simp
  · rw [toProps_countP]
    simp
  · rw [toProps_countP]
    simp
  · rw [toProps_countP]
    simp
  · rw [toProps_countP]
    simp
  · rw [toProps_lookup]
    simp
  · rw [toProps_lookup]
    simp
  · rw [toProps_lookup]
    simp
  · rw [toProps_lookup]
    simp
  · rw [toProps_lookup]
    simp
  · rw [toProps_lookup]
    simp
  · rw [toProps_lookup]
    simp
  · rw [toProps_lookup]
    simp
  · rw [toProps_lookup]
    simp
  · rw [toProps_lookup]
    simp
  · rw [toProps_lookup]
    simp
  · have hl_video_width := optEntry_length_le "width" (md.video_width.map (fun x => Amf0Value.number (u32AsF64 x)))
    have hl_video_height := optEntry_length_le "height" (md.video_height.map (fun x => Amf0Value.number (u32AsF64 x)))
    have hl_video_codec := optEntry_length_le "videocodecid" (md.video_codec.map (fun x => Amf0Value.number x))
    have hl_video_frame_rate := optEntry_length_le "framerate" (md.video_frame_rate.map (fun x => Amf0Value.number (f32AsF64 x)))
    have hl_video_bitrate_kbps := optEntry_length_le "videodatarate" (md.video_bitrate_kbps.map (fun x => Amf0Value.number (u32AsF64 x)))
    have hl_audio_codec := optEntry_length_le "audiocodecid" (md.audio_codec.map (fun x => Amf0Value.number x))
    have hl_audio_bitrate_kbps := optEntry_length_le "audiodatarate" (md.audio_bitrate_kbps.map (fun x => Amf0Value.number (u32AsF64 x)))
    have hl_audio_sample_rate := optEntry_length_le "audiosamplerate" (md.audio_sample_rate.map (fun x => Amf0Value.number (u32AsF64 x)))
    have hl_audio_channels := optEntry_length_le "audiochannels" (md.audio_channels.map (fun x => Amf0Value.number (u32AsF64 x)))
    have hl_audio_is_stereo := optEntry_length_le "stereo" (md.audio_is_stereo.map (fun x => Amf0Value.boolean x))
    have hl_encoder := optEntry_length_le "encoder" (md.encoder.map (fun x => Amf0Value.utf8String x))
    simp only [StreamMetadata.toProps, List.length_append]
    omega
  · exact toProps_keys_recognized md
  · rfl
  · rfl

/-- C5: on every record produced by `apply_metadata_values` from a property
map (starting from the empty record), `to_amf_value` followed by
`apply_metadata_values` reproduces the record exactly. -/
theorem metadata_record_roundtrip (props : List (String × Amf0Value)) :
    StreamMetadata.apply_metadata_values StreamMetadata.new
        (StreamMetadata.toProps (StreamMetadata.apply_metadata_values StreamMetadata.new props)) =
      StreamMetadata.apply_metadata_values StreamMetadata.new props := by
  set md := StreamMetadata.apply_metadata_values StreamMetadata.new props with hmd
  obtain ⟨r1, r2, r3, r4, r5, r6, r7⟩ :=
    reachable_apply props StreamMetadata.new reachable_new
  ext
  · rw [apply_video_width_char StreamMetadata.new (StreamMetadata.toProps md) (toProps_fst_nodup md), toProps_lookup]
    rcases hv : md.video_width with _ | x
    · simp [StreamMetadata.new, Option.or]
    · have hb := r1 x (by rw [← hmd]; simp [hv])
      simp [StreamMetadata.new, Option.or, Amf0Value.get_number, f64AsU32_u32AsF64 x hb]
  · rw [apply_video_height_char StreamMetadata.new (StreamMetadata.toProps md) (toProps_fst_nodup md), toProps_lookup]
    rcases hv : md.video_height with _ | x
    · simp [StreamMetadata.new, Option.or]
    · have hb := r2 x (by rw [← hmd]; simp [hv])
      simp [StreamMetadata.new, Option.or, Amf0Value.get_number, f64AsU32_u32AsF64 x hb]
  · rw [apply_video_codec_char StreamMetadata.new (StreamMetadata.toProps md) (toProps_fst_nodup md), toProps_lookup]
    rcases hv : md.video_codec with _ | x
    · simp [StreamMetadata.new, Option.or]
    · simp [StreamMetadata.new, Option.or, Amf0Value.get_number, Amf0Value.get_boolean,
        Amf0Value.get_string, f32AsF64]
  · rw [apply_video_frame_rate_char StreamMetadata.new (StreamMetadata.toProps md) (toProps_fst_nodup md), toProps_lookup]
    rcases hv : md.video_frame_rate with _ | x
    · simp [StreamMetadata.new, Option.or]
    · have hb := r3 x (by rw [← hmd]; simp [hv])
      simp [StreamMetadata.new, Option.or, Amf0Value.get_number, f32AsF64, hb]
  · rw [apply_video_bitrate_kbps_char StreamMetadata.new (StreamMetadata.toProps md) (toProps_fst_nodup md), toProps_lookup]
    rcases hv : md.video_bitrate_kbps with _ | x
    · simp [StreamMetadata.new, Option.or]
    · have hb := r4 x (by rw [← hmd]; simp [hv])
      simp [StreamMetadata.new, Option.or, Amf0Value.get_number, f64AsU32_u32AsF64 x hb]
  · rw [apply_audio_codec_char StreamMetadata.new (StreamMetadata.toProps md) (toProps_fst_nodup md), toProps_lookup]
    rcases hv : md.audio_codec with _ | x
    · simp [StreamMetadata.new, Option.or]
    · simp [StreamMetadata.new, Option.or, Amf0Value.get_number, Amf0Value.get_boolean,
        Amf0Value.get_string, f32AsF64]
  · rw [apply_audio_bitrate_kbps_char StreamMetadata.new (StreamMetadata.toProps md) (toProps_fst_nodup md), toProps_lookup]
    rcases hv : md.audio_bitrate_kbps with _ | x
    · simp [StreamMetadata.new, Option.or]
    · have hb := r5 x (by rw [← hmd]; simp [hv])
      simp [StreamMetadata.new, Option.or, Amf0Value.get_number, f64AsU32_u32AsF64 x hb]
  · rw [apply_audio_sample_rate_char StreamMetadata.new (StreamMetadata.toProps md) (toProps_fst_nodup md), toProps_lookup]
    rcases hv : md.audio_sample_rate with _ | x
    · simp [StreamMetadata.new, Option.or]
    · have hb := r6 x (by rw [← hmd]; simp [hv])
      simp [StreamMetadata.new, Option.or, Amf0Value.get_number, f64AsU32_u32AsF64 x hb]
  · rw [apply_audio_channels_char StreamMetadata.new (StreamMetadata.toProps md) (toProps_fst_nodup md), toProps_lookup]
    rcases hv : md.audio_channels with _ | x
    · simp [StreamMetadata.new, Option.or]
    · have hb := r7 x (by rw [← hmd]; simp [hv])
      simp [StreamMetadata.new, Option.or, Amf0Value.get_number, f64AsU32_u32AsF64 x hb]
  · rw [apply_audio_is_stereo_char StreamMetadata.new (StreamMetadata.toProps md) (toProps_fst_nodup md), toProps_lookup]
    rcases hv : md.audio_is_stereo with _ | x
    · simp [StreamMetadata.new, Option.or]
    · simp [StreamMetadata.new, Option.or, Amf0Value.get_number, Amf0Value.get_boolean,
        Amf0Value.get_string, f32AsF64]
  · rw [apply_encoder_char StreamMetadata.new (StreamMetadata.toProps md) (toProps_fst_nodup md), toProps_lookup]
    rcases hv : md.encoder with _ | x
    · simp [StreamMetadata.new, Option.or]
    · simp [StreamMetadata.new, Option.or, Amf0Value.get_number, Amf0Value.get_boolean,
        Amf0Value.get_string, f32AsF64]

/-- C6: for a property map containing only recognized keys with values of
the expected kinds, parsing and re-emitting produces a map with the same key
set whose values are the input values up to the documented representation
narrowing; unrecognized keys never appear in the output. -/
theorem metadata_map_roundtrip (props : List (String × Amf0Value))
    (hnd : (props.map Prod.fst).Nodup)
    (hwt : props.all (fun p => (specNarrowedValue p.1 p.2).isSome) = true) :
    ((StreamMetadata.toProps (StreamMetadata.apply_metadata_values StreamMetadata.new props)).lookup "width" =
        (props.lookup "width").bind (specNarrowedValue "width")) ∧
    ((StreamMetadata.toProps (StreamMetadata.apply_metadata_values StreamMetadata.new props)).lookup "height" =
        (props.lookup "height").bind (specNarrowedValue "height")) ∧
    ((StreamMetadata.toProps (StreamMetadata.apply_metadata_values StreamMetadata.new props)).lookup "videocodecid" =
        (props.lookup "videocodecid").bind (specNarrowedValue "videocodecid")) ∧
    ((StreamMetadata.toProps (StreamMetadata.apply_metadata_values StreamMetadata.new props)).lookup "framerate" =
        (props.lookup "framerate").bind (specNarrowedValue "framerate")) ∧
    ((StreamMetadata.toProps (StreamMetadata.apply_metadata_values StreamMetadata.new props)).lookup "videodatarate" =
        (props.lookup "videodatarate").bind (specNarrowedValue "videodatarate")) ∧
    ((StreamMetadata.toProps (StreamMetadata.apply_metadata_values StreamMetadata.new props)).lookup "audiocodecid" =
        (props.lookup "audiocodecid").bind (specNarrowedValue "audiocodecid")) ∧
    ((StreamMetadata.toProps (StreamMetadata.apply_metadata_values StreamMetadata.new props)).lookup "audiodatarate" =
        (props.lookup "audiodatarate").bind (specNarrowedValue "audiodatarate")) ∧
    ((StreamMetadata.toProps (StreamMetadata.apply_metadata_values StreamMetadata.new props)).lookup "audiosamplerate" =
        (props.lookup "audiosamplerate").bind (specNarrowedValue "audiosamplerate")) ∧
    ((StreamMetadata.toProps (StreamMetadata.apply_metadata_values StreamMetadata.new props)).lookup "audiochannels" =
        (props.lookup "audiochannels").bind (specNarrowedValue "audiochannels")) ∧
    ((StreamMetadata.toProps (StreamMetadata.apply_metadata_values StreamMetadata.new props)).lookup "stereo" =
        (props.lookup "stereo").bind (specNarrowedValue "stereo")) ∧
    ((StreamMetadata.toProps (StreamMetadata.apply_metadata_values StreamMetadata.new props)).lookup "encoder" =
        (props.lookup "encoder").bind (specNarrowedValue "encoder")) ∧
    (List.Perm ((StreamMetadata.toProps (StreamMetadata.apply_metadata_values StreamMetadata.new props)).map Prod.fst)
      (props.map Prod.fst)) ∧
    ((StreamMetadata.toProps (StreamMetadata.apply_metadata_values StreamMetadata.new props)).all
        (fun p => decide (p.1 ∈ recognizedKeys)) = true) := by
  refine ⟨?_, ?_, ?_, ?_, ?_, ?_, ?_, ?_, ?_, ?_, ?_, ?_, ?_⟩
  · exact toProps_apply_lookup props hnd "width"
  · exact toProps_apply_lookup props hnd "height"
  · exact toProps_apply_lookup props hnd "videocodecid"
  · exact toProps_apply_lookup props hnd "framerate"
  · exact toProps_apply_lookup props hnd "videodatarate"
  · exact toProps_apply_lookup props hnd "audiocodecid"
  · exact toProps_apply_lookup props hnd "audiodatarate"
  · exact toProps_apply_lookup props hnd "audiosamplerate"
  · exact toProps_apply_lookup props hnd "audiochannels"
  · exact toProps_apply_lookup props hnd "stereo"
  · exact toProps_apply_lookup props hnd "encoder"
  · refine (List.perm_ext_iff_of_nodup (toProps_fst_nodup _) hnd).mpr ?_
    intro a
    rw [mem_map_fst_iff_lookup, mem_map_fst_iff_lookup,
      toProps_apply_lookup props hnd a]
    rcases hl : props.lookup a with _ | v
    · simp
    · have hv : (specNarrowedValue a v).isSome = true := by
        have hm := lookup_some_mem props a v hl
        simpa using List.all_eq_true.mp hwt (a, v) hm
      simp [hv]
  · rw [List.all_eq_true]
    intro p hp
    simpa using toProps_keys_recognized _ p hp

/-- Witness for C6: a two-key well-typed map. -/
theorem metadata_map_roundtrip_witness :
    ((([("width", Amf0Value.number 640), ("stereo", Amf0Value.boolean true)] : List (String × Amf0Value)).map Prod.fst).Nodup) ∧
    (([("width", Amf0Value.number 640), ("stereo", Amf0Value.boolean true)] : List (String × Amf0Value)).all
        (fun p => (specNarrowedValue p.1 p.2).isSome) = true) ∧
    (      ((StreamMetadata.toProps (StreamMetadata.apply_metadata_values StreamMetadata.new
            ([("width", Amf0Value.number 640), ("stereo", Amf0Value.boolean true)] : List (String × Amf0Value)))).lookup "width" =
          (([("width", Amf0Value.number 640), ("stereo", Amf0Value.boolean true)] : List (String × Amf0Value)).lookup "width").bind (specNarrowedValue "width")) ∧
      ((StreamMetadata.toProps (StreamMetadata.apply_metadata_values StreamMetadata.new
            ([("width", Amf0Value.number 640), ("stereo", Amf0Value.boolean true)] : List (String × Amf0Value)))).lookup "height" =
          (([("width", Amf0Value.number 640), ("stereo", Amf0Value.boolean true)] : List (String × Amf0Value)).lookup "height").bind (specNarrowedValue "height")) ∧
      ((StreamMetadata.toProps (StreamMetadata.apply_metadata_values StreamMetadata.new
            ([("width", Amf0Value.number 640), ("stereo", Amf0Value.boolean true)] : List (String × Amf0Value)))).lookup "videocodecid" =
          (([("width", Amf0Value.number 640), ("stereo", Amf0Value.boolean true)] : List (String × Amf0Value)).lookup "videocodecid").bind (specNarrowedValue "videocodecid")) ∧
      ((StreamMetadata.toProps (StreamMetadata.apply_metadata_values StreamMetadata.new
            ([("width", Amf0Value.number 640), ("stereo", Amf0Value.boolean true)] : List (String × Amf0Value)))).lookup "framerate" =
          (([("width", Amf0Value.number 640), ("stereo", Amf0Value.boolean true)] : List (String × Amf0Value)).lookup "framerate").bind (specNarrowedValue "framerate")) ∧
      ((StreamMetadata.toProps (StreamMetadata.apply_metadata_values StreamMetadata.new
            ([("width", Amf0Value.number 640), ("stereo", Amf0Value.boolean true)] : List (String × Amf0Value)))).lookup "videodatarate" =
          (([("width", Amf0Value.number 640), ("stereo", Amf0Value.boolean true)] : List (String × Amf0Value)).lookup "videodatarate").bind (specNarrowedValue "videodatarate")) ∧
      ((StreamMetadata.toProps (StreamMetadata.apply_metadata_values StreamMetadata.new
            ([("width", Amf0Value.number 640), ("stereo", Amf0Value.boolean true)] : List (String × Amf0Value)))).lookup "audiocodecid" =
          (([("width", Amf0Value.number 640), ("stereo", Amf0Value.boolean true)] : List (String × Amf0Value)).lookup "audiocodecid").bind (specNarrowedValue "audiocodecid")) ∧
      ((StreamMetadata.toProps (StreamMetadata.apply_metadata_values StreamMetadata.new
            ([("width", Amf0Value.number 640), ("stereo", Amf0Value.boolean true)] : List (String × Amf0Value)))).lookup "audiodatarate" =
          (([("width", Amf0Value.number 640), ("stereo", Amf0Value.boolean true)] : List (String × Amf0Value)).lookup "audiodatarate").bind (specNarrowedValue "audiodatarate")) ∧
      ((StreamMetadata.toProps (StreamMetadata.apply_metadata_values StreamMetadata.new
            ([("width", Amf0Value.number 640), ("stereo", Amf0Value.boolean true)] : List (String × Amf0Value)))).lookup "audiosamplerate" =
          (([("width", Amf0Value.number 640), ("stereo", Amf0Value.boolean true)] : List (String × Amf0Value)).lookup "audiosamplerate").bind (specNarrowedValue "audiosamplerate")) ∧
      ((StreamMetadata.toProps (StreamMetadata.apply_metadata_values StreamMetadata.new
            ([("width", Amf0Value.number 640), ("stereo", Amf0Value.boolean true)] : List (String × Amf0Value)))).lookup "audiochannels" =
          (([("width", Amf0Value.number 640), ("stereo", Amf0Value.boolean true)] : List (String × Amf0Value)).lookup "audiochannels").bind (specNarrowedValue "audiochannels")) ∧
      ((StreamMetadata.toProps (StreamMetadata.apply_metadata_values StreamMetadata.new
            ([("width", Amf0Value.number 640), ("stereo", Amf0Value.boolean true)] : List (String × Amf0Value)))).lookup "stereo" =
          (([("width", Amf0Value.number 640), ("stereo", Amf0Value.boolean true)] : List (String × Amf0Value)).lookup "stereo").bind (specNarrowedValue "stereo")) ∧
      ((StreamMetadata.toProps (StreamMetadata.apply_metadata_values StreamMetadata.new
            ([("width", Amf0Value.number 640), ("stereo", Amf0Value.boolean true)] : List (String × Amf0Value)))).lookup "encoder" =
          (([("width", Amf0Value.number 640), ("stereo", Amf0Value.boolean true)] : List (String × Amf0Value)).lookup "encoder").bind (specNarrowedValue "encoder")) ∧
      (List.Perm ((StreamMetadata.toProps (StreamMetadata.apply_metadata_values StreamMetadata.new
            ([("width", Amf0Value.number 640), ("stereo", Amf0Value.boolean true)] : List (String × Amf0Value)))).map Prod.fst)
        (([("width", Amf0Value.number 640), ("stereo", Amf0Value.boolean true)] : List (String × Amf0Value)).map Prod.fst)) ∧
      ((StreamMetadata.toProps (StreamMetadata.apply_metadata_values StreamMetadata.new
            ([("width", Amf0Value.number 640), ("stereo", Amf0Value.boolean true)] : List (String × Amf0Value)))).all
          (fun p => decide (p.1 ∈ recognizedKeys)) = true)) :=
  ⟨by decide, by decide,
    metadata_map_roundtrip [("width", Amf0Value.number 640), ("stereo", Amf0Value.boolean true)] (by decide) (by decide)⟩

end RtmpSpec
